import Mathlib

/-!
# StockEasy: session store and equipment lifecycle manager

A shallow embedding of `frontend/js/auth.js`, `frontend/js/equipment.js`,
`frontend/js/supabase-client.js` and `frontend/js/api-bridge.js`.

* The process-wide `AuthState`, the browser `localStorage` and the hosted data
  service are fields of one explicit `World` that every operation threads.
* An `async` function whose whole body sits in `try … catch` and whose handler
  returns an envelope is a total function returning that envelope.  A promise
  that can reject is a `Settled` value.
* The hosted service is outside the repository.  Its tables are lists of rows;
  every request is appended to `Remote.log`, and `Remote.faults` is the outcome
  oracle for the requests still to come (`some msg` makes the next request
  answer with an error object carrying `msg`).
* `new Date()` / `Date.now()` read `World.now`, which advances by one per read.
-/

namespace StockEasy

/-! ## JavaScript values -/

/-- A JavaScript number holding a facility id: a finite number with an integer value, or
`NaN` as produced by `parseInt` on text without leading digits. -/
inductive JsNumber where
  | nan
  | int (v : Int)
deriving DecidableEq, Repr

/-- Truthiness of a nullable number: `null`, `NaN` and `0` are falsy. -/
def truthyNum : Option JsNumber → Bool
  | some (.int v) => v != 0
  | _ => false

/-- Truthiness of a nullable string: `null` and `''` are falsy. -/
def truthyStr : Option String → Bool
  | some s => s != ""
  | none => false

/-- The expression `x || d` for a nullable string `x`. -/
def orDefault (x : Option String) (d : String) : String :=
  match x with
  | some s => if s = "" then d else s
  | none => d

/-- The text a template literal gives for a possibly undefined string. -/
def interp : Option String → String
  | some s => s
  | none => "undefined"

/-- The method `String.prototype.includes`. -/
def includes (s sub : String) : Bool :=
  decide (sub.toList <:+: s.toList)

/-- Value of a character as a digit in the given radix, if it is one. -/
def digitVal (radix : Nat) (c : Char) : Option Nat :=
  let v : Option Nat :=
    if c.isDigit then some (c.toNat - 48)
    else if c.isLower then some (c.toNat - 87)
    else if c.isUpper then some (c.toNat - 55)
    else none
  v.filter (fun d => d < radix)

/-- Reads the longest run of digits at the head of the text; `none` when there is no digit. -/
def parseDigits (radix : Nat) : List Char → Option Nat → Option Nat
  | [], acc => acc
  | c :: cs, acc =>
    match digitVal radix c with
    | some d => parseDigits radix cs (some (acc.getD 0 * radix + d))
    | none => acc

/-- The part of `parseInt` after the sign: an optional `0x` marker, then digits. -/
def parseMagnitude : List Char → Option Nat
  | '0' :: 'x' :: cs => parseDigits 16 cs none
  | '0' :: 'X' :: cs => parseDigits 16 cs none
  | cs => parseDigits 10 cs none

/-- The white space `parseInt` skips first, the ECMAScript `WhiteSpace` and
`LineTerminator` code points: U+0009 to U+000D, the space separators U+0020, U+00A0,
U+1680, U+2000 to U+200A, U+202F, U+205F and U+3000, the line and paragraph separators
U+2028 and U+2029, and the byte order mark U+FEFF. -/
def isJsWhiteSpace (c : Char) : Bool :=
  (9 ≤ c.toNat && c.toNat ≤ 13) || c.toNat == 32 || c.toNat == 160 || c.toNat == 5760 ||
  (8192 ≤ c.toNat && c.toNat ≤ 8202) || c.toNat == 8232 || c.toNat == 8233 ||
  c.toNat == 8239 || c.toNat == 8287 || c.toNat == 12288 || c.toNat == 65279

/-- How many low bits a number has beyond a 53-bit significand: the halvings that bring it
below 2^53. The first argument bounds the recursion. -/
def excessBits : Nat → Nat → Nat
  | 0, _ => 0
  | fuel + 1, n => if n < 9007199254740992 then 0 else excessBits fuel (n / 2) + 1

/-- The Number value of a natural number: the number itself below 2^53, else the nearest
number with a 53-bit significand, a tie going to the even significand. The exponent is
left unbounded: from 2^1024 on the platform answers `Infinity`, a value `JsNumber` does
not hold, and a statement that reads such a value says that it stays below. -/
def toDouble (n : Nat) : Nat :=
  if n < 9007199254740992 then n
  else
    let e := excessBits n n
    let q := n / 2 ^ e
    let r := n % 2 ^ e
    let half := 2 ^ (e - 1)
    if r < half then q * 2 ^ e
    else if half < r then (q + 1) * 2 ^ e
    else if q % 2 = 0 then q * 2 ^ e
    else (q + 1) * 2 ^ e

/-- The global `parseInt(text)` without a radix argument: leading white space, a sign, an
optional `0x` marker, the longest run of digits, and the Number value of what they spell;
`NaN` without a digit. Negative zero is not told apart from zero. -/
def parseInt (s : String) : JsNumber :=
  match s.toList.dropWhile isJsWhiteSpace with
  | '-' :: cs =>
    match parseMagnitude cs with
    | some n => .int (-(toDouble n : Int))
    | none => .nan
  | '+' :: cs =>
    match parseMagnitude cs with
    | some n => .int (toDouble n)
    | none => .nan
  | cs =>
    match parseMagnitude cs with
    | some n => .int (toDouble n)
    | none => .nan

/-! ## Data model -/

/-- One element of an equipment record's `history` array. -/
structure HistoryEntry where
  action : String
  user : Option String
  location : Option String
  note : Option String
  timestamp : Nat
deriving DecidableEq, Repr

/-- A row of the `equipment` table. -/
structure Equipment where
  id : Nat
  facility_id : Int
  item_id : Option String
  name : Option String
  location : Option String
  category : Option String
  current_location : Option String
  user_location : Option String
  status : Option String
  note : Option String
  image_url : Option String
  history : Option (List HistoryEntry)
  created_at : Nat
deriving DecidableEq, Repr

/-- An image payload (a browser `File`); only its name is read. -/
structure ImageFile where
  name : String
deriving DecidableEq, Repr

/-- The argument of `createEquipment`; an absent key is `none`. -/
structure EquipmentData where
  facility_id : Option Int := none
  item_id : Option String := none
  name : Option String := none
  location : Option String := none
  category : Option String := none
  current_location : Option String := none
  user_location : Option String := none
  status : Option String := none
  note : Option String := none
  history : Option (List HistoryEntry) := none
  imageFile : Option ImageFile := none
deriving DecidableEq, Repr

/-- The `updates` argument of `updateEquipment`, also the object handed to the
table's `update`; an absent key is `none`. -/
structure Updates where
  item_id : Option String := none
  name : Option String := none
  location : Option String := none
  category : Option String := none
  current_location : Option (Option String) := none
  user_location : Option String := none
  status : Option String := none
  note : Option String := none
  image_url : Option String := none
  history : Option (List HistoryEntry) := none
  imageFile : Option ImageFile := none
deriving DecidableEq, Repr

/-- A row of the `users` table. -/
structure UserRow where
  id : Nat
  username : String
  password_hash : String
  role : String
  facility_id : Int
deriving DecidableEq, Repr

/-- A row of the `admin_users` table. -/
structure AdminRow where
  id : Nat
  username : String
  password_hash : String
deriving DecidableEq, Repr

/-- A user or administrator record as a `select` returns it: the columns that were
not selected are `none`. -/
structure UserRecord where
  id : Nat
  username : String
  password_hash : Option String
  role : Option String
  facility_id : Option Int
deriving DecidableEq, Repr

/-- The module-level `AuthState` object of `auth.js`. -/
structure AuthState where
  currentUser : Option UserRecord
  facilityId : Option JsNumber
  role : Option String
  isAuthenticated : Bool
deriving DecidableEq, Repr

/-- The four `localStorage` keys the session store reads and writes. -/
structure LocalStorage where
  stockeasy_facility_id : Option String
  stockeasy_role : Option String
  stockeasy_username : Option String
  stockeasy_user_id : Option String
deriving DecidableEq, Repr

/-! ## The hosted data service -/

/-- The filters `getEquipment` puts on its query. -/
structure EquipmentQuery where
  facility_id : Option Int
  category : Option String
  status : Option String
  search : Option String
deriving DecidableEq, Repr

/-- A request sent to the hosted service. -/
inductive Call where
  | equipmentSelect (q : EquipmentQuery)
  | equipmentSingle (facility : Int) (itemId : String)
  | equipmentInsert (facility : Int) (itemId : Option String)
  | equipmentUpdate (facility : Int) (itemId : String) (u : Updates)
  | equipmentDelete (facility : Int) (itemId : String)
  | usersSelect (facility : Int) (username role : String)
  | adminUsersSelect (username : String)
  | usersSingle (id : String)
  | adminUsersSingle (id : String)
  | storageList (folder : String) (search : Option String)
  | storageRemove (paths : List String)
  | storageUpload (path : String)
deriving DecidableEq, Repr

/-- Requests that write: table insert, update, delete and image upload or removal. -/
def Call.isMutation : Call → Bool
  | .equipmentInsert _ _ => true
  | .equipmentUpdate _ _ _ => true
  | .equipmentDelete _ _ => true
  | .storageRemove _ => true
  | .storageUpload _ => true
  | _ => false

/-- State of the hosted service as the client can observe it. -/
structure Remote where
  equipment : List Equipment
  users : List UserRow
  admin_users : List AdminRow
  images : List String
  nextId : Nat
  storageUrl : String
  faults : List (Option String)
  log : List Call
deriving DecidableEq, Repr

/-- Message of the error `.single()` reports when the filter does not select exactly one row. -/
def singleRowError : String := "JSON object requested, multiple (or no) rows returned"

/-- Sends one request: logs it and consumes the next entry of the outcome oracle. -/
def Remote.issue (r : Remote) (c : Call) : Option String × Remote :=
  (r.faults.head?.join, { r with faults := r.faults.tail, log := r.log ++ [c] })

/-- The filter `.eq('facility_id', f).eq('item_id', i)`. -/
def matchesItem (facility : Int) (itemId : String) (e : Equipment) : Bool :=
  e.facility_id == facility && e.item_id == some itemId

/-- The request `from('equipment').select(…).eq(…).eq(…).single()`. -/
def Remote.equipmentSingle (r : Remote) (facility : Int) (itemId : String) :
    Except String Equipment × Remote :=
  match r.issue (.equipmentSingle facility itemId) with
  | (some err, r1) => (.error err, r1)
  | (none, r1) =>
    match r.equipment.filter (matchesItem facility itemId) with
    | [e] => (.ok e, r1)
    | _ => (.error singleRowError, r1)

/-- Writes the keys present in an `update` object into a row. -/
def applyUpdates (u : Updates) (e : Equipment) : Equipment :=
  { e with
    item_id := if u.item_id.isSome then u.item_id else e.item_id
    name := if u.name.isSome then u.name else e.name
    location := if u.location.isSome then u.location else e.location
    category := if u.category.isSome then u.category else e.category
    current_location := u.current_location.getD e.current_location
    user_location := if u.user_location.isSome then u.user_location else e.user_location
    status := if u.status.isSome then u.status else e.status
    note := if u.note.isSome then u.note else e.note
    image_url := if u.image_url.isSome then u.image_url else e.image_url
    history := if u.history.isSome then u.history else e.history }

/-- The request `from('equipment').update(u).eq(…).eq(…).select()`: answers with the rows
it changed. -/
def Remote.equipmentUpdate (r : Remote) (facility : Int) (itemId : String) (u : Updates) :
    Except String (List Equipment) × Remote :=
  match r.issue (.equipmentUpdate facility itemId u) with
  | (some err, r1) => (.error err, r1)
  | (none, r1) =>
    (.ok ((r.equipment.filter (matchesItem facility itemId)).map (applyUpdates u)),
     { r1 with
       equipment := r.equipment.map
         (fun e => if matchesItem facility itemId e then applyUpdates u e else e) })

/-- The request `from('equipment').insert([row]).select()`: the service assigns `id`. -/
def Remote.equipmentInsert (r : Remote) (row : Equipment) :
    Except String (List Equipment) × Remote :=
  match r.issue (.equipmentInsert row.facility_id row.item_id) with
  | (some err, r1) => (.error err, r1)
  | (none, r1) =>
    let stored : Equipment := { row with id := r.nextId }
    (.ok [stored], { r1 with equipment := r.equipment ++ [stored], nextId := r.nextId + 1 })

/-- The request `from('equipment').delete().eq(…).eq(…)`. -/
def Remote.equipmentDelete (r : Remote) (facility : Int) (itemId : String) :
    Option String × Remote :=
  match r.issue (.equipmentDelete facility itemId) with
  | (some err, r1) => (some err, r1)
  | (none, r1) =>
    (none, { r1 with equipment := r.equipment.filter (fun e => !matchesItem facility itemId e) })

/-- Case-insensitive substring match standing for `ilike.%term%`. -/
def ilike (term : String) (field : Option String) : Bool :=
  match field with
  | some v => includes v.toLower term.toLower
  | none => false

/-- Whether a row passes the filters of a list query. -/
def EquipmentQuery.admits (q : EquipmentQuery) (e : Equipment) : Bool :=
  (match q.facility_id with | some f => e.facility_id == f | none => true) &&
  (match q.category with | some c => e.category == some c | none => true) &&
  (match q.status with | some s => e.status == some s | none => true) &&
  (match q.search with | some t => ilike t e.name || ilike t e.item_id | none => true)

/-- The request `from('equipment').select('*').order('created_at', descending)` with filters. -/
def Remote.equipmentSelect (r : Remote) (q : EquipmentQuery) :
    Except String (List Equipment) × Remote :=
  match r.issue (.equipmentSelect q) with
  | (some err, r1) => (.error err, r1)
  | (none, r1) =>
    (.ok ((r.equipment.filter q.admits).mergeSort (fun a b => decide (b.created_at ≤ a.created_at))),
     r1)

/-- The request `from('users').select(…).eq(…).eq(…).eq(…).limit(1)`. -/
def Remote.usersSelect (r : Remote) (facility : Int) (username role : String) :
    Except String (List UserRecord) × Remote :=
  match r.issue (.usersSelect facility username role) with
  | (some err, r1) => (.error err, r1)
  | (none, r1) =>
    (.ok (((r.users.filter (fun u =>
        u.facility_id == facility && u.username == username && u.role == role)).take 1).map
        (fun u => { id := u.id, username := u.username, password_hash := some u.password_hash,
                    role := some u.role, facility_id := some u.facility_id })), r1)

/-- The request `from('admin_users').select(…).eq('username', …).limit(1)`. -/
def Remote.adminUsersSelect (r : Remote) (username : String) :
    Except String (List UserRecord) × Remote :=
  match r.issue (.adminUsersSelect username) with
  | (some err, r1) => (.error err, r1)
  | (none, r1) =>
    (.ok (((r.admin_users.filter (fun a => a.username == username)).take 1).map
        (fun a => { id := a.id, username := a.username, password_hash := some a.password_hash,
                    role := none, facility_id := none })), r1)

/-- The request `from('users').select('id, username, role, facility_id').eq('id', …).single()`. -/
def Remote.usersSingle (r : Remote) (userId : String) : Except String UserRecord × Remote :=
  match r.issue (.usersSingle userId) with
  | (some err, r1) => (.error err, r1)
  | (none, r1) =>
    match r.users.filter (fun u => toString u.id == userId) with
    | [u] => (.ok { id := u.id, username := u.username, password_hash := none,
                    role := some u.role, facility_id := some u.facility_id }, r1)
    | _ => (.error singleRowError, r1)

/-- The request `from('admin_users').select('id, username').eq('id', …).single()`. -/
def Remote.adminUsersSingle (r : Remote) (userId : String) : Except String UserRecord × Remote :=
  match r.issue (.adminUsersSingle userId) with
  | (some err, r1) => (.error err, r1)
  | (none, r1) =>
    match r.admin_users.filter (fun a => toString a.id == userId) with
    | [a] => (.ok { id := a.id, username := a.username, password_hash := none,
                    role := none, facility_id := none }, r1)
    | _ => (.error singleRowError, r1)

/-- The request `storage.from('equipment-images').list(folder, search)`: the names of the
objects in the folder whose name contains the search text (all of them without one). -/
def Remote.storageList (r : Remote) (folder : String) (search : Option String) :
    Except String (List String) × Remote :=
  match r.issue (.storageList folder search) with
  | (some err, r1) => (.error err, r1)
  | (none, r1) =>
    (.ok ((r.images.filterMap (fun p =>
        if (folder ++ "/").isPrefixOf p then some (p.drop (folder ++ "/").length) else none)).filter
        (fun n => match search with | some t => includes n t | none => true)), r1)

/-- The request `storage.from('equipment-images').remove(paths)`. -/
def Remote.storageRemove (r : Remote) (paths : List String) : Option String × Remote :=
  match r.issue (.storageRemove paths) with
  | (some err, r1) => (some err, r1)
  | (none, r1) => (none, { r1 with images := r.images.filter (fun p => !paths.contains p) })

/-- The request `storage.from('equipment-images').upload(path, file, upsert)`. -/
def Remote.storageUpload (r : Remote) (path : String) : Option String × Remote :=
  match r.issue (.storageUpload path) with
  | (some err, r1) => (some err, r1)
  | (none, r1) =>
    (none, { r1 with images := if r.images.contains path then r.images else r.images ++ [path] })

/-! ## The world the client runs in -/

/-- Everything the client code reads and writes. -/
structure World where
  auth : AuthState
  localStorage : LocalStorage
  remote : Remote
  now : Nat
deriving DecidableEq, Repr

/-- A settled promise: resolved with a value or rejected with an error message. -/
inductive Settled (α : Type) where
  | resolved (value : α)
  | rejected (message : String)
deriving DecidableEq, Repr

/-- The `success` / `message` / `data` object the equipment operations return. -/
structure Envelope where
  success : Bool
  message : Option String := none
  data : Option Equipment := none
deriving DecidableEq, Repr

/-- The object a `catch` handler returns: `message: error.message || fallback`. -/
def failure (message fallback : String) : Envelope :=
  { success := false, message := some (if message = "" then fallback else message) }

/-! ## supabase-client.js -/

/-- The function `getImageUrl(filePath)`. -/
def getImageUrl (r : Remote) (filePath : Option String) : String :=
  if !truthyStr filePath then ""
  else r.storageUrl ++ "/storage/v1/object/public/equipment-images/" ++ interp filePath

/-- The function `uploadImage(file, facilityId, itemId)`: the stored path, or the thrown error. -/
def uploadImage (w : World) (file : ImageFile) (facilityId : Int) (itemId : Option String) :
    Except String String × World :=
  let fileExt := ((file.name.splitOn ".").getLast?).getD ""
  let fileName := interp itemId ++ "_" ++ toString w.now ++ "." ++ fileExt
  let folder := "facility_" ++ toString facilityId
  let filePath := folder ++ "/" ++ fileName
  let w0 : World := { w with now := w.now + 1 }
  let listed := w0.remote.storageList folder itemId
  let r2 : Remote :=
    match listed.1 with
    | .ok (n :: ns) => (listed.2.storageRemove ((n :: ns).map (fun x => folder ++ "/" ++ x))).2
    | _ => listed.2
  let uploaded := r2.storageUpload filePath
  match uploaded.1 with
  | some err => (.error err, { w0 with remote := uploaded.2 })
  | none => (.ok filePath, { w0 with remote := uploaded.2 })

/-- The function `deleteImage(filePath)`: `none` on completion, else the thrown error. -/
def deleteImage (w : World) (filePath : Option String) : Option String × World :=
  if !truthyStr filePath then (none, w)
  else
    match w.remote.storageRemove [interp filePath] with
    | (some err, r1) => (some err, { w with remote := r1 })
    | (none, r1) => (none, { w with remote := r1 })

/-! ## auth.js -/

/-- The object `login`, `loginAdmin` and `restoreSession` return. -/
structure SessionResult where
  success : Bool
  message : Option String := none
  user : Option UserRecord := none
  facilityId : Option JsNumber := none
  role : Option String := none
deriving DecidableEq, Repr

/-- The failure object of the session operations. -/
def sessionFailure (message fallback : String) : SessionResult :=
  { success := false, message := some (if message = "" then fallback else message) }

/-- The function `login(facilityId, username, password, role)`. -/
def login (w : World) (facilityId : Int) (username password role : String) :
    SessionResult × World :=
  match w.remote.usersSelect facilityId username role with
  | (.error err, r1) => (sessionFailure err "ログインに失敗しました", { w with remote := r1 })
  | (.ok [], r1) =>
    (sessionFailure "ユーザー名またはパスワードが違います" "ログインに失敗しました",
     { w with remote := r1 })
  | (.ok (user :: _), r1) =>
    ({ success := true, user := some user, facilityId := some (.int facilityId),
       role := some role },
     { w with
       remote := r1
       auth := { currentUser := some user, facilityId := some (.int facilityId),
                 role := some role, isAuthenticated := true }
       localStorage :=
         { stockeasy_facility_id := some (toString facilityId)
           stockeasy_role := some role
           stockeasy_username := some username
           stockeasy_user_id := some (toString user.id) } })

/-- The function `loginAdmin(username, password)`. -/
def loginAdmin (w : World) (username password : String) : SessionResult × World :=
  match w.remote.adminUsersSelect username with
  | (.error err, r1) => (sessionFailure err "ログインに失敗しました", { w with remote := r1 })
  | (.ok [], r1) =>
    (sessionFailure "ユーザー名またはパスワードが違います" "ログインに失敗しました",
     { w with remote := r1 })
  | (.ok (admin :: _), r1) =>
    ({ success := true, user := some admin, role := some "system_admin" },
     { w with
       remote := r1
       auth := { currentUser := some admin, facilityId := none,
                 role := some "system_admin", isAuthenticated := true }
       localStorage :=
         { w.localStorage with
           stockeasy_role := some "system_admin"
           stockeasy_username := some username
           stockeasy_user_id := some (toString admin.id) } })

/-- The function `logout()`. -/
def logout (w : World) : SessionResult × World :=
  ({ success := true },
   { w with
     auth := { currentUser := none, facilityId := none, role := none, isAuthenticated := false }
     localStorage :=
       { stockeasy_facility_id := none, stockeasy_role := none,
         stockeasy_username := none, stockeasy_user_id := none } })

/-- The `catch` handler of `restoreSession`: log out, then report the error. -/
def restoreFailed (w : World) (err : String) : SessionResult × World :=
  (sessionFailure err "セッションの復元に失敗しました", (logout w).2)

/-- The function `restoreSession()`. -/
def restoreSession (w : World) : SessionResult × World :=
  let facilityId := w.localStorage.stockeasy_facility_id
  let role := w.localStorage.stockeasy_role
  let username := w.localStorage.stockeasy_username
  let userId := w.localStorage.stockeasy_user_id
  if !truthyStr role || !truthyStr username || !truthyStr userId then
    ({ success := false, message := some "セッション情報が見つかりません" }, w)
  else
    let auth1 : AuthState :=
      { w.auth with
        facilityId := if truthyStr facilityId then some (parseInt (interp facilityId)) else none
        role := role
        isAuthenticated := true }
    if role = some "system_admin" then
      match w.remote.adminUsersSingle (interp userId) with
      | (.error err, r1) => restoreFailed { w with auth := auth1, remote := r1 } err
      | (.ok admin, r1) =>
        ({ success := true, user := some admin, facilityId := auth1.facilityId,
           role := auth1.role },
         { w with auth := { auth1 with currentUser := some admin }, remote := r1 })
    else
      match w.remote.usersSingle (interp userId) with
      | (.error err, r1) => restoreFailed { w with auth := auth1, remote := r1 } err
      | (.ok user, r1) =>
        ({ success := true, user := some user, facilityId := auth1.facilityId,
           role := auth1.role },
         { w with auth := { auth1 with currentUser := some user }, remote := r1 })

/-- The function `isAuthenticated()`. -/
def isAuthenticated (w : World) : Bool := w.auth.isAuthenticated

/-- The function `isAdmin()`. -/
def isAdmin (w : World) : Bool :=
  w.auth.role == some "admin" || w.auth.role == some "system_admin"

/-- The function `isSystemAdmin()`. -/
def isSystemAdmin (w : World) : Bool := w.auth.role == some "system_admin"

/-- The function `getCurrentFacilityId()`. -/
def getCurrentFacilityId (w : World) : Option JsNumber := w.auth.facilityId

/-- The function `getCurrentRole()`. -/
def getCurrentRole (w : World) : Option String := w.auth.role

/-- The function `getCurrentUser()` of `auth.js`. -/
def getCurrentUser (w : World) : Option UserRecord := w.auth.currentUser

/-- The integer behind a truthy facility id, as the guards `if (!facilityId)` let it through. -/
def facilityScope : Option JsNumber → Option Int
  | some (.int v) => if v = 0 then none else some v
  | _ => none

/-! ## equipment.js -/

/-- The `filters` argument of `getEquipment`. -/
structure Filters where
  category : Option String := none
  status : Option String := none
  searchTerm : Option String := none
deriving DecidableEq, Repr

/-- The filters `getEquipment` chains onto its query builder. -/
def buildQuery (facilityId : Option JsNumber) (filters : Filters) : EquipmentQuery :=
  { facility_id := facilityScope facilityId
    category := if truthyStr filters.category && filters.category != some "all"
                then filters.category else none
    status := if truthyStr filters.status && filters.status != some "all"
              then filters.status else none
    search := if truthyStr filters.searchTerm then filters.searchTerm else none }

/-- The function `getEquipment(filters)`: each row with its resolved `image`. -/
def getEquipment (w : World) (filters : Filters) :
    Settled (List (Equipment × String)) × World :=
  let facilityId := getCurrentFacilityId w
  if !truthyNum facilityId && !isSystemAdmin w then
    (.rejected "施設IDが設定されていません", w)
  else
    match w.remote.equipmentSelect (buildQuery facilityId filters) with
    | (.error err, r1) => (.rejected err, { w with remote := r1 })
    | (.ok data, r1) =>
      (.resolved (data.map (fun item =>
          (item, if truthyStr item.image_url then getImageUrl r1 item.image_url else ""))),
       { w with remote := r1 })

/-- The object literal `createEquipment` hands to `insert`; `id` and `created_at` are
columns the service fills in. -/
def insertedRow (facilityId : Int) (equipmentData : EquipmentData) (imageUrl : String)
    (now : Nat) : Equipment :=
  { id := 0
    facility_id := facilityId
    item_id := equipmentData.item_id
    name := equipmentData.name
    location := equipmentData.location
    category := equipmentData.category
    current_location := some (orDefault equipmentData.current_location "")
    user_location := some (orDefault equipmentData.user_location "")
    status := some (orDefault equipmentData.status "待機")
    note := some (orDefault equipmentData.note "")
    image_url := some imageUrl
    history := some (equipmentData.history.getD [])
    created_at := now }

/-- The function `createEquipment(equipmentData)`. -/
def createEquipment (w : World) (equipmentData : EquipmentData) : Envelope × World :=
  match facilityScope (getCurrentFacilityId w) with
  | none => (failure "施設IDが設定されていません" "備品の登録に失敗しました", w)
  | some facilityId =>
    if !isAdmin w then (failure "管理者権限が必要です" "備品の登録に失敗しました", w)
    else
      let (uploaded, w1) : Except String String × World :=
        match equipmentData.imageFile with
        | some file => uploadImage w file facilityId equipmentData.item_id
        | none => (.ok "", w)
      match uploaded with
      | .error err => (failure err "備品の登録に失敗しました", w1)
      | .ok imageUrl =>
        match w1.remote.equipmentInsert (insertedRow facilityId equipmentData imageUrl w1.now) with
        | (.error err, r1) => (failure err "備品の登録に失敗しました", { w1 with remote := r1 })
        | (.ok [], r1) =>
          (failure "Cannot read properties of undefined (reading 'id')" "備品の登録に失敗しました",
           { w1 with remote := r1 })
        | (.ok (d :: _), r1) => ({ success := true, data := some d }, { w1 with remote := r1 })

/-- Whether `Object.keys(updates)` holds one of `name`, `category`, `location`, `item_id`. -/
def hasAdminOnlyFields (updates : Updates) : Bool :=
  updates.name.isSome || updates.category.isSome || updates.location.isSome ||
    updates.item_id.isSome

/-- The function `updateEquipment(itemId, updates)`. -/
def updateEquipment (w : World) (itemId : String) (updates : Updates) : Envelope × World :=
  match facilityScope (getCurrentFacilityId w) with
  | none => (failure "施設IDが設定されていません" "備品の更新に失敗しました", w)
  | some facilityId =>
    if hasAdminOnlyFields updates && !isAdmin w then
      (failure "管理者権限が必要です" "備品の更新に失敗しました", w)
    else
      let (uploaded, w1) : Except String Updates × World :=
        match updates.imageFile with
        | some file =>
          match uploadImage w file facilityId (some itemId) with
          | (.error err, w1) => (.error err, w1)
          | (.ok imageUrl, w1) =>
            (.ok { updates with image_url := some imageUrl, imageFile := none }, w1)
        | none => (.ok updates, w)
      match uploaded with
      | .error err => (failure err "備品の更新に失敗しました", w1)
      | .ok updates1 =>
        match w1.remote.equipmentUpdate facilityId itemId updates1 with
        | (.error err, r1) => (failure err "備品の更新に失敗しました", { w1 with remote := r1 })
        | (.ok [], r1) =>
          (failure "備品が見つかりません" "備品の更新に失敗しました", { w1 with remote := r1 })
        | (.ok (d :: _), r1) => ({ success := true, data := some d }, { w1 with remote := r1 })

/-- The function `deleteEquipment(itemId)`. -/
def deleteEquipment (w : World) (itemId : String) : Envelope × World :=
  match facilityScope (getCurrentFacilityId w) with
  | none => (failure "施設IDが設定されていません" "備品の削除に失敗しました", w)
  | some facilityId =>
    if !isAdmin w then (failure "管理者権限が必要です" "備品の削除に失敗しました", w)
    else
      match w.remote.equipmentSingle facilityId itemId with
      | (.error fetchError, r1) =>
        (failure fetchError "備品の削除に失敗しました", { w with remote := r1 })
      | (.ok equipment, r1) =>
        let w1 : World := { w with remote := r1 }
        match (if truthyStr equipment.image_url then deleteImage w1 equipment.image_url
               else (none, w1)) with
        | (some err, w2) => (failure err "備品の削除に失敗しました", w2)
        | (none, w2) =>
          match w2.remote.equipmentDelete facilityId itemId with
          | (some err, r3) => (failure err "備品の削除に失敗しました", { w2 with remote := r3 })
          | (none, r3) => ({ success := true }, { w2 with remote := r3 })

/-- The function `borrowEquipment(itemId, userName, userLocation)`. -/
def borrowEquipment (w : World) (itemId userName userLocation : String) : Envelope × World :=
  match facilityScope (getCurrentFacilityId w) with
  | none => (failure "施設IDが設定されていません" "備品の借用に失敗しました", w)
  | some facilityId =>
    match w.remote.equipmentSingle facilityId itemId with
    | (.error fetchError, r1) =>
      (failure fetchError "備品の借用に失敗しました", { w with remote := r1 })
    | (.ok equipment, r1) =>
      if equipment.status != some "待機" then
        (failure "この備品は既に借用されています" "備品の借用に失敗しました", { w with remote := r1 })
      else
        let history := equipment.history.getD [] ++
          [{ action := "borrow", user := some userName, location := some userLocation,
             note := none, timestamp := w.now }]
        match r1.equipmentUpdate facilityId itemId
            { status := some "使用中", user_location := some userName,
              current_location := some (some userLocation), history := some history } with
        | (.error err, r2) =>
          (failure err "備品の借用に失敗しました", { w with remote := r2, now := w.now + 1 })
        | (.ok data, r2) =>
          ({ success := true, data := data.head? }, { w with remote := r2, now := w.now + 1 })

/-- The function `returnEquipment(itemId, note)`. -/
def returnEquipment (w : World) (itemId note : String) : Envelope × World :=
  match facilityScope (getCurrentFacilityId w) with
  | none => (failure "施設IDが設定されていません" "備品の返却に失敗しました", w)
  | some facilityId =>
    match w.remote.equipmentSingle facilityId itemId with
    | (.error fetchError, r1) =>
      (failure fetchError "備品の返却に失敗しました", { w with remote := r1 })
    | (.ok equipment, r1) =>
      if equipment.status != some "使用中" then
        (failure "この備品は借用されていません" "備品の返却に失敗しました", { w with remote := r1 })
      else
        let history := equipment.history.getD [] ++
          [{ action := "return", user := equipment.user_location,
             location := equipment.current_location, note := some note, timestamp := w.now }]
        match r1.equipmentUpdate facilityId itemId
            { status := some "待機", user_location := some "",
              current_location := some equipment.location, note := some note,
              history := some history } with
        | (.error err, r2) =>
          (failure err "備品の返却に失敗しました", { w with remote := r2, now := w.now + 1 })
        | (.ok data, r2) =>
          ({ success := true, data := data.head? }, { w with remote := r2, now := w.now + 1 })

/-- One element of the array an import file parses to: `null`, or any other value, of
which only the keys `createEquipment` reads are kept. -/
inductive ImportItem where
  | null
  | record (item : EquipmentData)
deriving DecidableEq, Repr

/-- What reading and parsing the import file gives: the reader fails, `JSON.parse` throws,
the value is not an array, or it is an array. -/
inductive ImportFile where
  | unreadable
  | malformed (message : String)
  | notArray
  | array (items : List ImportItem)
deriving DecidableEq, Repr

/-- The object `importData` returns or resolves to. -/
structure ImportResult where
  success : Bool
  message : Option String := none
  successCount : Option Nat := none
  failCount : Option Nat := none
deriving DecidableEq, Repr

/-- Message of the `TypeError` raised by `item.facility_id = …` on a `null` element. -/
def nullItemError : String := "Cannot set properties of null (setting facility_id)"

/-- The `for (const item of data)` loop of `importData`: the collected results, or the
error thrown in the loop body. -/
def importLoop (facilityId : Int) :
    World → List ImportItem → List Envelope → Except String (List Envelope) × World
  | w, [], results => (.ok results, w)
  | w, .null :: _, _ => (.error nullItemError, w)
  | w, .record item :: rest, results =>
    let item1 : EquipmentData := { item with facility_id := some facilityId }
    let (result, w1) := createEquipment w item1
    importLoop facilityId w1 rest (results ++ [result])

/-- The function `importData(file)`: how the promise it returns settles. -/
def importData (w : World) (file : ImportFile) : Settled ImportResult × World :=
  if !isAdmin w then
    (.resolved { success := false, message := some "管理者権限が必要です" }, w)
  else
    match facilityScope (getCurrentFacilityId w) with
    | none => (.resolved { success := false, message := some "施設IDが設定されていません" }, w)
    | some facilityId =>
      match file with
      | .unreadable => (.rejected "ファイルの読み込みに失敗しました", w)
      | .malformed message => (.rejected message, w)
      | .notArray => (.rejected "無効なデータ形式です", w)
      | .array data =>
        match importLoop facilityId w data [] with
        | (.error err, w1) => (.rejected err, w1)
        | (.ok results, w1) =>
          let successCount := (results.filter (fun r => r.success)).length
          let failCount := results.length - successCount
          (.resolved
            { success := true
              message := some (toString successCount ++ "件のデータをインポートしました")
              successCount := some successCount
              failCount := some failCount }, w1)

/-! ## api-bridge.js -/

/-- The global `window.StockEasyEquipment` as the bridge calls it: each operation is an
asynchronous function whose promise resolves or rejects. -/
structure EquipmentModule where
  getEquipment : World → Filters → Settled (List (Equipment × String)) × World
  createEquipment : World → EquipmentData → Settled Envelope × World
  updateEquipment : World → String → Updates → Settled Envelope × World
  deleteEquipment : World → String → Settled Envelope × World

/-- The object `equipment.js` assigns to `window.StockEasyEquipment`. -/
def StockEasyEquipment : EquipmentModule :=
  { getEquipment := getEquipment
    createEquipment := fun w equipmentData =>
      (.resolved (createEquipment w equipmentData).1, (createEquipment w equipmentData).2)
    updateEquipment := fun w itemId updates =>
      (.resolved (updateEquipment w itemId updates).1, (updateEquipment w itemId updates).2)
    deleteEquipment := fun w itemId =>
      (.resolved (deleteEquipment w itemId).1, (deleteEquipment w itemId).2) }

/-- The function `loadItemsFromSupabase(filters)`: its handler rethrows. -/
def loadItemsFromSupabase (equipment : EquipmentModule) (w : World) (filters : Filters) :
    Settled (List (Equipment × String)) × World :=
  equipment.getEquipment w filters

/-- The function `registerItemToSupabase(itemData)`. -/
def registerItemToSupabase (equipment : EquipmentModule) (w : World)
    (itemData : EquipmentData) : Envelope × World :=
  match equipment.createEquipment w itemData with
  | (.resolved result, w1) => (result, w1)
  | (.rejected message, w1) => (failure message "備品の登録に失敗しました", w1)

/-- The function `updateItemInSupabase(itemId, updates)`. -/
def updateItemInSupabase (equipment : EquipmentModule) (w : World) (itemId : String)
    (updates : Updates) : Envelope × World :=
  match equipment.updateEquipment w itemId updates with
  | (.resolved result, w1) => (result, w1)
  | (.rejected message, w1) => (failure message "備品の更新に失敗しました", w1)

/-- The function `deleteItemFromSupabase(itemId)`. -/
def deleteItemFromSupabase (equipment : EquipmentModule) (w : World) (itemId : String) :
    Envelope × World :=
  match equipment.deleteEquipment w itemId with
  | (.resolved result, w1) => (result, w1)
  | (.rejected message, w1) => (failure message "備品の削除に失敗しました", w1)

/-- What `JSON.parse(options.body)` gives: a thrown `SyntaxError` (also for a missing
body), or a value, of which only the keys `createEquipment` and `updateEquipment` read
are kept. -/
inductive ParsedBody where
  | invalid (message : String)
  | value (equipmentData : EquipmentData) (updates : Updates)
deriving DecidableEq, Repr

/-- The `options` argument of `apiCall`; a missing `method` is `none`. -/
structure Options where
  method : Option String := none
  body : ParsedBody := .invalid "Unexpected token u in JSON at position 0"
deriving DecidableEq, Repr

/-- The `json` member of a response: an asynchronous function that either loads the
items when called or hands back a result already computed. -/
inductive JsonThunk where
  | loadItems
  | result (envelope : Envelope)
deriving DecidableEq, Repr

/-- The object `apiCall` returns. -/
structure Response where
  ok : Bool
  json : JsonThunk
deriving DecidableEq, Repr

/-- What calling `json()` yields: the equipment list or an envelope. -/
inductive JsonValue where
  | items (rows : List (Equipment × String))
  | envelope (e : Envelope)
deriving DecidableEq, Repr

/-- Calling `response.json()`. -/
def Response.runJson (equipment : EquipmentModule) (w : World) (response : Response) :
    Settled JsonValue × World :=
  match response.json with
  | .loadItems =>
    match loadItemsFromSupabase equipment w {} with
    | (.resolved rows, w1) => (.resolved (.items rows), w1)
    | (.rejected message, w1) => (.rejected message, w1)
  | .result e => (.resolved (.envelope e), w)

/-- The function `apiCall(url, options)`; `equipment` is what `window.StockEasyEquipment`
holds when it runs. -/
def apiCall (equipment : EquipmentModule) (w : World) (url : String) (options : Options) :
    Settled Response × World :=
  if includes url "/equipment" && options.method == some "GET" then
    (.resolved { ok := true, json := .loadItems }, w)
  else if includes url "/equipment" && options.method == some "POST" then
    match options.body with
    | .invalid message => (.rejected message, w)
    | .value data _ =>
      let result := registerItemToSupabase equipment w data
      (.resolved { ok := result.1.success, json := .result result.1 }, result.2)
  else if includes url "/equipment/" && options.method == some "PUT" then
    let itemId := ((url.splitOn "/").getLast?).getD ""
    match options.body with
    | .invalid message => (.rejected message, w)
    | .value _ data =>
      let result := updateItemInSupabase equipment w itemId data
      (.resolved { ok := result.1.success, json := .result result.1 }, result.2)
  else if includes url "/equipment/" && options.method == some "DELETE" then
    let itemId := ((url.splitOn "/").getLast?).getD ""
    let result := deleteItemFromSupabase equipment w itemId
    (.resolved { ok := result.1.success, json := .result result.1 }, result.2)
  else
    (.resolved { ok := false,
                 json := .result { success := false, message := some "Unsupported API call" } },
     w)

/-! ## Vocabulary of the statements -/

/-- No request still to come is answered with a fault: all remote calls succeed. -/
def Remote.noFaults (r : Remote) : Prop := ∀ f ∈ r.faults, f = none

instance Remote.decidableNoFaults (r : Remote) : Decidable r.noFaults := by
  unfold Remote.noFaults; infer_instance

/-- The object `borrowEquipment` hands to `update` for the fetched record. -/
def borrowUpdates (e : Equipment) (userName userLocation : String) (now : Nat) : Updates :=
  { status := some "使用中", user_location := some userName,
    current_location := some (some userLocation),
    history := some (e.history.getD [] ++
      [{ action := "borrow", user := some userName, location := some userLocation,
         note := none, timestamp := now }]) }

/-- The object `returnEquipment` hands to `update` for the fetched record. -/
def returnUpdates (e : Equipment) (note : String) (now : Nat) : Updates :=
  { status := some "待機", user_location := some "",
    current_location := some e.location, note := some note,
    history := some (e.history.getD [] ++
      [{ action := "return", user := e.user_location, location := e.current_location,
         note := some note, timestamp := now }]) }

/-- The service after a fetch and an update that both succeed. -/
def afterFetchUpdate (r : Remote) (facilityId : Int) (itemId : String) (u : Updates) : Remote :=
  { r with
    faults := r.faults.tail.tail
    log := r.log ++ [.equipmentSingle facilityId itemId, .equipmentUpdate facilityId itemId u]
    equipment := r.equipment.map
      (fun x => if matchesItem facilityId itemId x then applyUpdates u x else x) }

/-! ## Concrete worlds -/

/-- A chair of facility 3, waiting in the storage room. -/
def chair : Equipment :=
  { id := 1, facility_id := 3, item_id := some "A1", name := some "Chair",
    location := some "Storage", category := some "furniture",
    current_location := some "Storage", user_location := some "", status := some "待機",
    note := some "", image_url := some "", history := some [], created_at := 10 }

/-- A wheelchair of facility 3, borrowed once and still in use. -/
def wheelchair : Equipment :=
  { id := 2, facility_id := 3, item_id := some "B7", name := some "Wheelchair",
    location := some "Entrance", category := some "mobility",
    current_location := some "Room 101", user_location := some "Sato", status := some "使用中",
    note := some "", image_url := some "",
    history := some [{ action := "borrow", user := some "Sato", location := some "Room 101",
                       note := none, timestamp := 20 }],
    created_at := 11 }

/-- A service holding two equipment records, two facility users and one administrator. -/
def demoRemote : Remote :=
  { equipment := [chair, wheelchair]
    users := [⟨5, "staff", "h5", "staff", 3⟩, ⟨6, "chief", "h6", "admin", 3⟩]
    admin_users := [⟨1, "admin", "h1"⟩]
    images := [], nextId := 3, storageUrl := "https://demo.supabase.co"
    faults := [], log := [] }

/-- A page that has just loaded: nobody signed in, nothing persisted. -/
def guestWorld : World :=
  { auth := { currentUser := none, facilityId := none, role := none, isAuthenticated := false }
    localStorage := ⟨none, none, none, none⟩
    remote := demoRemote, now := 100 }

/-- A staff member of facility 3 is signed in. -/
def staffWorld : World :=
  { auth := { currentUser := some ⟨5, "staff", some "h5", some "staff", some 3⟩,
              facilityId := some (.int 3), role := some "staff", isAuthenticated := true }
    localStorage := ⟨some "3", some "staff", some "staff", some "5"⟩
    remote := demoRemote, now := 100 }

/-- An administrator of facility 3 is signed in. -/
def adminWorld : World :=
  { auth := { currentUser := some ⟨6, "chief", some "h6", some "admin", some 3⟩,
              facilityId := some (.int 3), role := some "admin", isAuthenticated := true }
    localStorage := ⟨some "3", some "admin", some "chief", some "6"⟩
    remote := demoRemote, now := 100 }

/-! ## The lifecycle of a record -/

/-- The service once a request has been logged and its oracle entry consumed. -/
def Remote.after (r : Remote) (c : Call) : Remote :=
  { r with faults := r.faults.tail, log := r.log ++ [c] }

/-- An operation of the lifecycle manager on an existing record. -/
inductive LifecycleOp where
  | borrow (itemId userName userLocation : String)
  | giveBack (itemId note : String)
  | update (itemId : String) (updates : Updates)
deriving DecidableEq, Repr

/-- The world an operation leaves behind. -/
def LifecycleOp.run (w : World) : LifecycleOp → World
  | .borrow itemId userName userLocation => (borrowEquipment w itemId userName userLocation).2
  | .giveBack itemId note => (returnEquipment w itemId note).2
  | .update itemId updates => (updateEquipment w itemId updates).2

/-- An update is restricted when its object carries neither `status` nor `history`. -/
def LifecycleOp.restricted : LifecycleOp → Prop
  | .update _ updates => updates.status = none ∧ updates.history = none
  | _ => True

/-- The record moved from one status to the other and gained exactly one history entry
of the given action at the end of its history. -/
def transition (fromStatus toStatus action : String) (old new : Equipment) : Prop :=
  old.status = some fromStatus ∧ new.status = some toStatus ∧
  ∃ h : HistoryEntry, h.action = action ∧ new.history = some (old.history.getD [] ++ [h])

/-- What an operation may do to one record: keep its status and history, or, for a
borrow, move it from waiting to in use, or, for a return, from in use to waiting. -/
def LifecycleOp.allows (op : LifecycleOp) (old new : Equipment) : Prop :=
  new.id = old.id ∧
  ((new.status = old.status ∧ new.history = old.history) ∨
    match op with
    | .borrow _ _ _ => transition "待機" "使用中" "borrow" old new
    | .giveBack _ _ => transition "使用中" "待機" "return" old new
    | .update _ _ => False)

/-! ## Import and session scenarios -/

/-- The spec's reading of an import: every record of the file goes through
`createEquipment`, in file order, whatever became of the records before it, and each
outcome is kept. -/
def sequentialCreates : World → List EquipmentData → List Envelope × World
  | w, [] => ([], w)
  | w, item :: rest =>
    let first := createEquipment w item
    let others := sequentialCreates first.2 rest
    (first.1 :: others.1, others.2)

/-- Number of records of the file that fail in `createEquipment`. -/
def failedCreates (w : World) (items : List EquipmentData) : Nat :=
  ((sequentialCreates w items).1.filter (fun r => !r.success)).length

/-- An administrator of facility 3 facing a service that refuses the second request. -/
def importWorld : World :=
  { adminWorld with
    remote := { demoRemote with faults := [none, some "duplicate key value", none] } }

/-- Three records of an export made at facility 99. -/
def importItems : List EquipmentData :=
  [{ facility_id := some 99, item_id := some "C1", name := some "Lamp" },
   { facility_id := some 99, item_id := some "A1", name := some "Chair" },
   { facility_id := some 99, item_id := some "C2", name := some "Desk" }]

/-- An administrator is signed in, but the persisted user id has been lost. -/
def lostKeyWorld : World :=
  { adminWorld with localStorage := ⟨some "3", some "admin", some "chief", none⟩ }

/-- A freshly loaded page whose storage kept a role but neither user name nor user id. -/
def partialStorageWorld : World :=
  { guestWorld with localStorage := ⟨some "3", some "admin", none, none⟩ }

/-- A freshly loaded page whose storage names a user id the service does not know. -/
def orphanWorld : World :=
  { guestWorld with localStorage := ⟨some "3", some "staff", some "staff", some "42"⟩ }

/-! ## Deletion, upload, bridge and restore scenarios -/

/-- A lamp of facility 3 with a stored picture. -/
def lamp : Equipment :=
  { id := 3, facility_id := 3, item_id := some "L1", name := some "Lamp",
    location := some "Office", category := some "lighting",
    current_location := some "Office", user_location := some "", status := some "待機",
    note := some "", image_url := some "facility_3/L1_50.png", history := some [],
    created_at := 12 }

/-- An administrator of facility 3 facing a service whose storage refuses the second
request; the table holds the lamp and its picture. -/
def storageDownWorld : World :=
  { adminWorld with
    remote := { demoRemote with
                equipment := [chair, wheelchair, lamp]
                images := ["facility_3/L1_50.png"]
                faults := [none, some "storage unavailable"] } }

/-- An administrator of facility 3 facing a service that answers the listing of stored
pictures and then refuses the upload. -/
def uploadRefusedWorld : World :=
  { adminWorld with
    remote := { demoRemote with faults := [none, some "Payload too large"] } }

/-- A freshly loaded page whose storage names staff user 5 of facility 3 but claims the
role `admin` and facility 9. -/
def tamperedWorld : World :=
  { guestWorld with localStorage := ⟨some "9", some "admin", some "staff", some "5"⟩ }

/-- The response `apiCall` gives to a call it does not route. -/
def unsupportedResponse : Response :=
  { ok := false, json := .result { success := false, message := some "Unsupported API call" } }

/-- A character that `Nat.toDigits 10` can produce. -/
def IsDecimalChar (c : Char) : Prop := ∃ k, k < 10 ∧ c = Nat.digitChar k

/-- The path `uploadImage` stores a file under: the facility folder, then the item id,
the time of the call and the file's extension. -/
def imagePath (file : ImageFile) (facilityId : Int) (itemId : Option String) (now : Nat) :
    String :=
  "facility_" ++ toString facilityId ++ "/" ++
    (interp itemId ++ "_" ++ toString now ++ "." ++ ((file.name.splitOn ".").getLast?).getD "")

/-! ## Lemmas on the hosted service -/

theorem issue_of_noFaults (r : Remote) (c : Call) (h : r.noFaults) :
    r.issue c = (none, { r with faults := r.faults.tail, log := r.log ++ [c] }) := by
  unfold Remote.issue
  cases hf : r.faults with
  | nil => simp
  | cons a t =>
    have : a = none := h a (by simp [hf])
    simp [this]

theorem noFaults_tail (r r1 : Remote) (h : r.noFaults) (hf : r1.faults = r.faults.tail) :
    r1.noFaults := by
  intro f hmem
  rw [hf] at hmem
  exact h f (List.mem_of_mem_tail hmem)

theorem equipmentSingle_ok (r : Remote) (facility : Int) (itemId : String) (e : Equipment)
    (h : r.noFaults) (hrow : r.equipment.filter (matchesItem facility itemId) = [e]) :
    r.equipmentSingle facility itemId =
      (.ok e, { r with faults := r.faults.tail,
                       log := r.log ++ [.equipmentSingle facility itemId] }) := by
  unfold Remote.equipmentSingle
  rw [issue_of_noFaults r _ h]
  simp [hrow]

theorem equipmentUpdate_ok (r : Remote) (facility : Int) (itemId : String) (u : Updates)
    (h : r.noFaults) :
    r.equipmentUpdate facility itemId u =
      (.ok ((r.equipment.filter (matchesItem facility itemId)).map (applyUpdates u)),
       { r with faults := r.faults.tail,
                log := r.log ++ [.equipmentUpdate facility itemId u],
                equipment := r.equipment.map
                  (fun e => if matchesItem facility itemId e then applyUpdates u e else e) }) := by
  unfold Remote.equipmentUpdate
  rw [issue_of_noFaults r _ h]

theorem filter_map_update (rows : List Equipment) (facility : Int) (itemId : String)
    (u : Updates) (hu : u.item_id = none) :
    (rows.map (fun e => if matchesItem facility itemId e then applyUpdates u e else e)).filter
        (matchesItem facility itemId) =
      (rows.filter (matchesItem facility itemId)).map (applyUpdates u) := by
  induction rows with
  | nil => rfl
  | cons a t ih =>
    by_cases ha : matchesItem facility itemId a = true
    · have : matchesItem facility itemId (applyUpdates u a) = true := by
        simpa [matchesItem, applyUpdates, hu] using ha
      simp [List.filter_cons, ha, this, ih]
    · simp [List.filter_cons, ha, ih]

/-! ## Lemmas on borrow and return -/

theorem borrowEquipment_ok (w : World) (itemId userName userLocation : String)
    (facilityId : Int) (e : Equipment)
    (hscope : facilityScope (getCurrentFacilityId w) = some facilityId)
    (hrecord : w.remote.equipment.filter (matchesItem facilityId itemId) = [e])
    (hwaiting : e.status = some "待機")
    (hok : w.remote.noFaults) :
    borrowEquipment w itemId userName userLocation =
      ({ success := true,
         data := some (applyUpdates (borrowUpdates e userName userLocation w.now) e) },
       { w with
         remote := afterFetchUpdate w.remote facilityId itemId
           (borrowUpdates e userName userLocation w.now)
         now := w.now + 1 }) := by
  have hok1 : Remote.noFaults { w.remote with
      faults := w.remote.faults.tail,
      log := w.remote.log ++ [.equipmentSingle facilityId itemId] } := noFaults_tail _ _ hok rfl
  unfold borrowEquipment
  rw [hscope]
  simp only [equipmentSingle_ok w.remote facilityId itemId e hok hrecord, hwaiting]
  simp [equipmentUpdate_ok _ facilityId itemId _ hok1, hrecord, borrowUpdates, afterFetchUpdate]

theorem returnEquipment_ok (w : World) (itemId note : String)
    (facilityId : Int) (e : Equipment)
    (hscope : facilityScope (getCurrentFacilityId w) = some facilityId)
    (hrecord : w.remote.equipment.filter (matchesItem facilityId itemId) = [e])
    (hinuse : e.status = some "使用中")
    (hok : w.remote.noFaults) :
    returnEquipment w itemId note =
      ({ success := true, data := some (applyUpdates (returnUpdates e note w.now) e) },
       { w with
         remote := afterFetchUpdate w.remote facilityId itemId (returnUpdates e note w.now)
         now := w.now + 1 }) := by
  have hok1 : Remote.noFaults { w.remote with
      faults := w.remote.faults.tail,
      log := w.remote.log ++ [.equipmentSingle facilityId itemId] } := noFaults_tail _ _ hok rfl
  unfold returnEquipment
  rw [hscope]
  simp only [equipmentSingle_ok w.remote facilityId itemId e hok hrecord, hinuse]
  simp [equipmentUpdate_ok _ facilityId itemId _ hok1, hrecord, returnUpdates, afterFetchUpdate]

/-! ## Borrow and return (C1, C2, C3) -/

/-- C1: for the one record of the caller's facility carrying `itemId`, when it is waiting
and every remote call succeeds, `borrowEquipment` followed by `returnEquipment` both
succeed and leave the table as it was except for that record, which is again waiting, at
its home location, with an empty `user_location`, the supplied note, and its former
history followed by exactly a borrow entry and a return entry, in this order, both
naming the borrower and the borrow location. -/
theorem borrow_then_return (w : World) (itemId userName userLocation note : String)
    (facilityId : Int) (e : Equipment)
    (hscope : facilityScope (getCurrentFacilityId w) = some facilityId)
    (hrecord : w.remote.equipment.filter (matchesItem facilityId itemId) = [e])
    (hwaiting : e.status = some "待機")
    (hok : w.remote.noFaults) :
    (borrowEquipment w itemId userName userLocation).1.success = true ∧
    (returnEquipment (borrowEquipment w itemId userName userLocation).2 itemId note).1.success
      = true ∧
    (returnEquipment (borrowEquipment w itemId userName userLocation).2 itemId
        note).2.remote.equipment =
      w.remote.equipment.map (fun x =>
        if matchesItem facilityId itemId x then
          { e with
            status := some "待機"
            current_location := e.location
            user_location := some ""
            note := some note
            history := some (e.history.getD [] ++
              [{ action := "borrow", user := some userName, location := some userLocation,
                 note := none, timestamp := w.now },
               { action := "return", user := some userName, location := some userLocation,
                 note := some note, timestamp := w.now + 1 }]) }
        else x) := by
  have hb := borrowEquipment_ok w itemId userName userLocation facilityId e hscope hrecord
    hwaiting hok
  have hr := returnEquipment_ok (borrowEquipment w itemId userName userLocation).2 itemId note
    facilityId (applyUpdates (borrowUpdates e userName userLocation w.now) e)
    (by rw [hb]; exact hscope)
    (by rw [hb]
        simp only [afterFetchUpdate]
        rw [filter_map_update _ _ _ _ rfl, hrecord]; rfl)
    (by simp [applyUpdates, borrowUpdates])
    (by rw [hb]
        exact noFaults_tail { w.remote with faults := w.remote.faults.tail } _
          (noFaults_tail _ _ hok rfl) rfl)
  refine ⟨by rw [hb], by rw [hr], ?_⟩
  rw [hr]
  simp only [afterFetchUpdate, hb, List.map_map]
  apply List.map_congr_left
  intro x hx
  by_cases hm : matchesItem facilityId itemId x = true
  · have hxe : x = e := by
      have : x ∈ w.remote.equipment.filter (matchesItem facilityId itemId) :=
        List.mem_filter.mpr ⟨hx, hm⟩
      rw [hrecord] at this
      simpa using this
    subst hxe
    simp only [matchesItem, Bool.and_eq_true, beq_iff_eq] at hm
    simp [hm, matchesItem, applyUpdates, borrowUpdates, returnUpdates]
  · simp [hm]

/-- Witness of C1: the scenario `borrow("A1", "Nurse Tanaka", "Room 204")` then
`return("A1", "cleaned")` on the waiting chair of facility 3. -/
theorem borrow_then_return_witness :
    facilityScope (getCurrentFacilityId staffWorld) = some 3 ∧
    staffWorld.remote.equipment.filter (matchesItem 3 "A1") = [chair] ∧
    chair.status = some "待機" ∧
    staffWorld.remote.noFaults ∧
    (returnEquipment (borrowEquipment staffWorld "A1" "Nurse Tanaka" "Room 204").2 "A1"
        "cleaned").2.remote.equipment =
      [{ chair with
         note := some "cleaned"
         history := some
           [{ action := "borrow", user := some "Nurse Tanaka", location := some "Room 204",
              note := none, timestamp := 100 },
            { action := "return", user := some "Nurse Tanaka", location := some "Room 204",
              note := some "cleaned", timestamp := 101 }] },
       wheelchair] :=
  ⟨by decide, by decide, by decide, by decide,
   (borrow_then_return staffWorld "A1" "Nurse Tanaka" "Room 204" "cleaned" 3 chair
      (by decide) (by decide) (by decide) (by decide)).2.2.trans (by decide)⟩

/-- C2: when the record the caller's facility holds under `itemId` is in use,
`borrowEquipment` returns a failure envelope, which carries the already-borrowed message
whenever the fetch itself is answered, and the only request it issues is the fetch: no
update is sent and the table is unchanged. -/
theorem borrow_in_use_fails (w : World) (itemId userName userLocation : String)
    (facilityId : Int) (e : Equipment)
    (hscope : facilityScope (getCurrentFacilityId w) = some facilityId)
    (hrecord : w.remote.equipment.filter (matchesItem facilityId itemId) = [e])
    (hinuse : e.status = some "使用中") :
    (borrowEquipment w itemId userName userLocation).1.success = false ∧
    (w.remote.faults.head?.join = none →
      (borrowEquipment w itemId userName userLocation).1.message =
        some "この備品は既に借用されています") ∧
    (borrowEquipment w itemId userName userLocation).2.remote.equipment = w.remote.equipment ∧
    (borrowEquipment w itemId userName userLocation).2.remote.log =
      w.remote.log ++ [.equipmentSingle facilityId itemId] := by
  unfold borrowEquipment
  rw [hscope]
  unfold Remote.equipmentSingle Remote.issue
  cases hf : w.remote.faults.head?.join <;> simp [hf, hrecord, hinuse, failure]

/-- Witness of C2: a second borrow of the wheelchair that is already in use. -/
theorem borrow_in_use_fails_witness :
    facilityScope (getCurrentFacilityId staffWorld) = some 3 ∧
    staffWorld.remote.equipment.filter (matchesItem 3 "B7") = [wheelchair] ∧
    wheelchair.status = some "使用中" ∧
    (borrowEquipment staffWorld "B7" "Nurse Tanaka" "Room 204").1.success = false ∧
    (borrowEquipment staffWorld "B7" "Nurse Tanaka" "Room 204").1.message =
      some "この備品は既に借用されています" ∧
    (borrowEquipment staffWorld "B7" "Nurse Tanaka" "Room 204").2.remote.equipment =
      [chair, wheelchair] ∧
    (borrowEquipment staffWorld "B7" "Nurse Tanaka" "Room 204").2.remote.log =
      [.equipmentSingle 3 "B7"] :=
  have h := borrow_in_use_fails staffWorld "B7" "Nurse Tanaka" "Room 204" 3 wheelchair
    (by decide) (by decide) (by decide)
  ⟨by decide, by decide, by decide, h.1, h.2.1 (by decide), h.2.2.1, h.2.2.2⟩

/-- C3: when the record the caller's facility holds under `itemId` is waiting,
`returnEquipment` returns a failure envelope, which carries the not-borrowed message
whenever the fetch itself is answered, and the only request it issues is the fetch: no
update is sent and the table is unchanged. -/
theorem return_waiting_fails (w : World) (itemId note : String)
    (facilityId : Int) (e : Equipment)
    (hscope : facilityScope (getCurrentFacilityId w) = some facilityId)
    (hrecord : w.remote.equipment.filter (matchesItem facilityId itemId) = [e])
    (hwaiting : e.status = some "待機") :
    (returnEquipment w itemId note).1.success = false ∧
    (w.remote.faults.head?.join = none →
      (returnEquipment w itemId note).1.message = some "この備品は借用されていません") ∧
    (returnEquipment w itemId note).2.remote.equipment = w.remote.equipment ∧
    (returnEquipment w itemId note).2.remote.log =
      w.remote.log ++ [.equipmentSingle facilityId itemId] := by
  unfold returnEquipment
  rw [hscope]
  unfold Remote.equipmentSingle Remote.issue
  cases hf : w.remote.faults.head?.join <;> simp [hf, hrecord, hwaiting, failure]

/-- Witness of C3: a return of the chair that nobody borrowed. -/
theorem return_waiting_fails_witness :
    facilityScope (getCurrentFacilityId staffWorld) = some 3 ∧
    staffWorld.remote.equipment.filter (matchesItem 3 "A1") = [chair] ∧
    chair.status = some "待機" ∧
    (returnEquipment staffWorld "A1" "cleaned").1.message = some "この備品は借用されていません" ∧
    (returnEquipment staffWorld "A1" "cleaned").2.remote.equipment = [chair, wheelchair] :=
  ⟨by decide, by decide, by decide,
   (return_waiting_fails staffWorld "A1" "cleaned" 3 chair (by decide) (by decide)
      (by decide)).2.1 (by decide),
   (return_waiting_fails staffWorld "A1" "cleaned" 3 chair (by decide) (by decide)
      (by decide)).2.2.1⟩

/-! ## Administrator-only operations (C4) -/

/-- Counterexample to C4 as stated: on a freshly loaded page the role is neither `admin`
nor `system_admin` and there is no facility scope; `createEquipment`, `deleteEquipment`
and `updateEquipment` with a `name` key all fail, but with the facility message, not the
permission message. -/
theorem non_admin_without_scope_counterexample :
    guestWorld.auth.role ≠ some "admin" ∧ guestWorld.auth.role ≠ some "system_admin" ∧
    (createEquipment guestWorld { name := some "Chair" }).1.message ≠
      some "管理者権限が必要です" ∧
    (deleteEquipment guestWorld "A1").1.message ≠ some "管理者権限が必要です" ∧
    (updateEquipment guestWorld "A1" { name := some "Stool" }).1.message ≠
      some "管理者権限が必要です" ∧
    (createEquipment guestWorld { name := some "Chair" }).1.message =
      some "施設IDが設定されていません" := by
  decide

/-- C4, amended: for a session whose role is neither `admin` nor `system_admin`,
`createEquipment`, `deleteEquipment`, and `updateEquipment` whose updates hold one of the
keys `name`, `category`, `location`, `item_id`, return a failure envelope and leave the
world untouched, so no remote request of any kind is issued; the envelope carries the
permission message when the session has an active facility scope, and the
facility-not-set message when it has none. -/
theorem non_admin_denied (w : World) (equipmentData : EquipmentData) (itemId : String)
    (updates : Updates)
    (hadmin : w.auth.role ≠ some "admin") (hsys : w.auth.role ≠ some "system_admin")
    (hkeys : updates.name.isSome ∨ updates.category.isSome ∨ updates.location.isSome ∨
      updates.item_id.isSome) :
    createEquipment w equipmentData =
      ({ success := false,
         message := some (if (facilityScope (getCurrentFacilityId w)).isSome
           then "管理者権限が必要です" else "施設IDが設定されていません") }, w) ∧
    deleteEquipment w itemId =
      ({ success := false,
         message := some (if (facilityScope (getCurrentFacilityId w)).isSome
           then "管理者権限が必要です" else "施設IDが設定されていません") }, w) ∧
    updateEquipment w itemId updates =
      ({ success := false,
         message := some (if (facilityScope (getCurrentFacilityId w)).isSome
           then "管理者権限が必要です" else "施設IDが設定されていません") }, w) := by
  have hnot : isAdmin w = false := by simp [isAdmin, hadmin, hsys]
  have hfields : hasAdminOnlyFields updates = true := by
    simpa [hasAdminOnlyFields, or_assoc] using hkeys
  unfold createEquipment deleteEquipment updateEquipment
  cases hs : facilityScope (getCurrentFacilityId w) <;> simp [hnot, hfields, failure]

/-- Witness of C4, amended: a staff member of facility 3 is refused with the permission
message by all three operations, and the world is untouched. -/
theorem non_admin_denied_witness :
    staffWorld.auth.role ≠ some "admin" ∧ staffWorld.auth.role ≠ some "system_admin" ∧
    createEquipment staffWorld { item_id := some "C9", name := some "Lamp" } =
      ({ success := false, message := some "管理者権限が必要です" }, staffWorld) ∧
    deleteEquipment staffWorld "A1" =
      ({ success := false, message := some "管理者権限が必要です" }, staffWorld) ∧
    updateEquipment staffWorld "A1" { category := some "seating" } =
      ({ success := false, message := some "管理者権限が必要です" }, staffWorld) :=
  ⟨by decide, by decide,
   non_admin_denied staffWorld { item_id := some "C9", name := some "Lamp" } "A1"
     { category := some "seating" } (by decide) (by decide) (Or.inr (Or.inl rfl))⟩

/-! ## Status and history across the operations (C5) -/

theorem equipmentSingle_cases (r : Remote) (facility : Int) (itemId : String) :
    (∃ err, r.equipmentSingle facility itemId =
      (.error err, r.after (.equipmentSingle facility itemId))) ∨
    (∃ e, r.equipment.filter (matchesItem facility itemId) = [e] ∧
      r.equipmentSingle facility itemId =
        (.ok e, r.after (.equipmentSingle facility itemId))) := by
  unfold Remote.equipmentSingle Remote.issue Remote.after
  cases hf : r.faults.head?.join with
  | some err => exact Or.inl ⟨err, rfl⟩
  | none =>
    cases hrow : r.equipment.filter (matchesItem facility itemId) with
    | nil => exact Or.inl ⟨singleRowError, rfl⟩
    | cons a t =>
      cases t with
      | nil => exact Or.inr ⟨a, rfl, rfl⟩
      | cons b t2 => exact Or.inl ⟨singleRowError, rfl⟩

theorem equipmentUpdate_cases (r : Remote) (facility : Int) (itemId : String) (u : Updates) :
    (∃ err, r.equipmentUpdate facility itemId u =
      (.error err, r.after (.equipmentUpdate facility itemId u))) ∨
    r.equipmentUpdate facility itemId u =
      (.ok ((r.equipment.filter (matchesItem facility itemId)).map (applyUpdates u)),
       { r.after (.equipmentUpdate facility itemId u) with
         equipment := r.equipment.map
           (fun e => if matchesItem facility itemId e then applyUpdates u e else e) }) := by
  unfold Remote.equipmentUpdate Remote.issue Remote.after
  cases hf : r.faults.head?.join with
  | some err => exact Or.inl ⟨err, rfl⟩
  | none => exact Or.inr rfl

theorem borrowEquipment_table (w : World) (itemId userName userLocation : String) :
    (borrowEquipment w itemId userName userLocation).2.remote.equipment = w.remote.equipment ∨
    ∃ f e, w.remote.equipment.filter (matchesItem f itemId) = [e] ∧ e.status = some "待機" ∧
      (borrowEquipment w itemId userName userLocation).2.remote.equipment =
        w.remote.equipment.map (fun x =>
          if matchesItem f itemId x then
            applyUpdates (borrowUpdates e userName userLocation w.now) x else x) := by
  unfold borrowEquipment
  cases hs : facilityScope (getCurrentFacilityId w) with
  | none => left; rfl
  | some f =>
    rcases equipmentSingle_cases w.remote f itemId with ⟨err, h1⟩ | ⟨e, hrow, h1⟩
    · left; simp only [h1]; rfl
    · by_cases hst : e.status = some "待機"
      · simp only [h1, hst, bne_self_eq_false, Bool.false_eq_true, if_false]
        rcases equipmentUpdate_cases (w.remote.after (.equipmentSingle f itemId)) f itemId
          (borrowUpdates e userName userLocation w.now) with ⟨err, h2⟩ | h2
        · left
          simp only [borrowUpdates, hst] at h2
          simp only [h2]; rfl
        · right
          refine ⟨f, e, hrow, hst, ?_⟩
          simp only [borrowUpdates, hst] at h2
          simp only [h2]; rfl
      · left
        simp only [h1]
        simp [hst]; rfl

theorem returnEquipment_table (w : World) (itemId note : String) :
    (returnEquipment w itemId note).2.remote.equipment = w.remote.equipment ∨
    ∃ f e, w.remote.equipment.filter (matchesItem f itemId) = [e] ∧ e.status = some "使用中" ∧
      (returnEquipment w itemId note).2.remote.equipment =
        w.remote.equipment.map (fun x =>
          if matchesItem f itemId x then
            applyUpdates (returnUpdates e note w.now) x else x) := by
  unfold returnEquipment
  cases hs : facilityScope (getCurrentFacilityId w) with
  | none => left; rfl
  | some f =>
    rcases equipmentSingle_cases w.remote f itemId with ⟨err, h1⟩ | ⟨e, hrow, h1⟩
    · left; simp only [h1]; rfl
    · by_cases hst : e.status = some "使用中"
      · simp only [h1, hst, bne_self_eq_false, Bool.false_eq_true, if_false]
        rcases equipmentUpdate_cases (w.remote.after (.equipmentSingle f itemId)) f itemId
          (returnUpdates e note w.now) with ⟨err, h2⟩ | h2
        · left
          simp only [returnUpdates, hst] at h2
          simp only [h2]; rfl
        · right
          refine ⟨f, e, hrow, hst, ?_⟩
          simp only [returnUpdates, hst] at h2
          simp only [h2]; rfl
      · left
        simp only [h1]
        simp [hst]; rfl

theorem uploadImage_keeps (w : World) (file : ImageFile) (facilityId : Int)
    (itemId : Option String) :
    (uploadImage w file facilityId itemId).2.remote.equipment = w.remote.equipment ∧
    (uploadImage w file facilityId itemId).2.auth = w.auth := by
  have hup : ∀ (r : Remote) (p : String), (r.storageUpload p).2.equipment = r.equipment := by
    intro r p
    unfold Remote.storageUpload Remote.issue
    cases r.faults.head?.join <;> rfl
  have hrm : ∀ (r : Remote) (ps : List String),
      (r.storageRemove ps).2.equipment = r.equipment := by
    intro r ps
    unfold Remote.storageRemove Remote.issue
    cases r.faults.head?.join <;> rfl
  have hls : ∀ (r : Remote) (d : String) (t : Option String),
      (r.storageList d t).2.equipment = r.equipment := by
    intro r d t
    unfold Remote.storageList Remote.issue
    cases r.faults.head?.join <;> rfl
  unfold uploadImage
  simp only []
  constructor
  · split <;> (simp only [hup]; split <;> simp only [hrm, hls])
  · split <;> rfl

theorem forall₂_map_update (R : Equipment → Equipment → Prop) (rows : List Equipment)
    (g : Equipment → Equipment) (p : Equipment → Bool)
    (hsame : ∀ x, R x x) (hg : ∀ x ∈ rows, p x = true → R x (g x)) :
    List.Forall₂ R rows (rows.map (fun x => if p x then g x else x)) := by
  rw [List.forall₂_map_right_iff, List.forall₂_same]
  intro x hx
  by_cases hp : p x = true
  · simpa [hp] using hg x hx hp
  · simpa [hp] using hsame x

theorem updateEquipment_table (w : World) (itemId : String) (updates : Updates) :
    (updateEquipment w itemId updates).2.remote.equipment = w.remote.equipment ∨
    ∃ f u, u.status = updates.status ∧ u.history = updates.history ∧
      (updateEquipment w itemId updates).2.remote.equipment =
        w.remote.equipment.map (fun x =>
          if matchesItem f itemId x then applyUpdates u x else x) := by
  unfold updateEquipment
  cases hs : facilityScope (getCurrentFacilityId w) with
  | none => left; rfl
  | some f =>
    by_cases hg : (hasAdminOnlyFields updates && !isAdmin w) = true
    · left; simp only [hg, if_true]
    · simp only [hg, if_false]
      cases hfile : updates.imageFile with
      | none =>
        simp only []
        rcases equipmentUpdate_cases w.remote f itemId updates with ⟨err, h2⟩ | h2
        · left; simp only [h2]; rfl
        · right
          refine ⟨f, updates, rfl, rfl, ?_⟩
          simp only [h2]
          cases w.remote.equipment.filter (matchesItem f itemId) <;> rfl
      | some file =>
        simp only []
        have hk := uploadImage_keeps w file f (some itemId)
        cases hup : uploadImage w file f (some itemId) with
        | mk res w1 =>
          rw [hup] at hk
          cases res with
          | error err => left; simpa using hk.1
          | ok imageUrl =>
            simp only []
            rcases equipmentUpdate_cases w1.remote f itemId
              { updates with image_url := some imageUrl, imageFile := none } with ⟨err, h2⟩ | h2
            · left; simp only [h2]; simpa [Remote.after] using hk.1
            · right
              refine ⟨f, { updates with image_url := some imageUrl, imageFile := none },
                rfl, rfl, ?_⟩
              simp only [h2]
              have hk1 := hk.1
              simp only at hk1
              rw [hk1]
              cases w.remote.equipment.filter (matchesItem f itemId) <;> rfl

theorem allows_refl (op : LifecycleOp) (x : Equipment) : op.allows x x :=
  ⟨rfl, Or.inl ⟨rfl, rfl⟩⟩

theorem eq_of_filter_singleton (rows : List Equipment) (p : Equipment → Bool) (e x : Equipment)
    (hrow : rows.filter p = [e]) (hx : x ∈ rows) (hp : p x = true) : x = e := by
  have : x ∈ rows.filter p := List.mem_filter.mpr ⟨hx, hp⟩
  rw [hrow] at this
  simpa using this

/-- Counterexample to C5 as stated: a staff member calls `updateEquipment` with a `status`
and a `history` key on the wheelchair that is in use with one history entry; the call
succeeds, the record is waiting afterwards without any return, no entry was appended and
the existing entry is gone. -/
theorem update_overwrites_status_and_history_counterexample :
    wheelchair.status = some "使用中" ∧
    wheelchair.history =
      some [{ action := "borrow", user := some "Sato", location := some "Room 101",
              note := none, timestamp := 20 }] ∧
    (updateEquipment staffWorld "B7" { status := some "待機", history := some [] }).1.success
      = true ∧
    (updateEquipment staffWorld "B7"
        { status := some "待機", history := some [] }).2.remote.equipment =
      [chair, { wheelchair with status := some "待機", history := some [] }] ∧
    ¬ List.Forall₂ (LifecycleOp.allows (.update "B7" { status := some "待機", history := some [] }))
      staffWorld.remote.equipment
      ((LifecycleOp.update "B7" { status := some "待機", history := some [] }).run
        staffWorld).remote.equipment := by
  refine ⟨by decide, by decide, by decide, by decide, ?_⟩
  have h : ((LifecycleOp.update "B7" { status := some "待機", history := some [] }).run
        staffWorld).remote.equipment =
      [chair, { wheelchair with status := some "待機", history := some [] }] := by decide
  rw [h]
  intro hall
  have h2 : LifecycleOp.allows (.update "B7" { status := some "待機", history := some [] })
      wheelchair { wheelchair with status := some "待機", history := some [] } := by
    cases hall with
    | cons _ hrest =>
      cases hrest with
      | cons hw _ => exact hw
  rcases h2 with ⟨_, h3 | h3⟩
  · exact absurd h3.1 (by decide)
  · exact h3


/-- C5, amended: across `borrowEquipment`, `returnEquipment`, and `updateEquipment` called
with updates that carry neither a `status` nor a `history` key, for every caller and every
input, the table after the operation holds the same records in the same order, and each
record either keeps its status and its history, or went from waiting to in use through a
borrow, or from in use to waiting through a return, and in these two cases its history is
the former history followed by exactly one entry of that action. -/
theorem lifecycle_step (w : World) (op : LifecycleOp) (hop : op.restricted) :
    List.Forall₂ op.allows w.remote.equipment (op.run w).remote.equipment := by
  cases op with
  | borrow itemId userName userLocation =>
    rcases borrowEquipment_table w itemId userName userLocation with h | ⟨f, e, hrow, hst, h⟩
    · simp only [LifecycleOp.run, h]
      exact List.forall₂_same.mpr (fun x _ => allows_refl _ x)
    · simp only [LifecycleOp.run, h]
      apply forall₂_map_update _ _ _ _ (allows_refl _)
      intro x hx hp
      have hxe := eq_of_filter_singleton _ _ e x hrow hx hp
      subst hxe
      exact ⟨rfl, Or.inr ⟨hst, rfl, _, rfl, rfl⟩⟩
  | giveBack itemId note =>
    rcases returnEquipment_table w itemId note with h | ⟨f, e, hrow, hst, h⟩
    · simp only [LifecycleOp.run, h]
      exact List.forall₂_same.mpr (fun x _ => allows_refl _ x)
    · simp only [LifecycleOp.run, h]
      apply forall₂_map_update _ _ _ _ (allows_refl _)
      intro x hx hp
      have hxe := eq_of_filter_singleton _ _ e x hrow hx hp
      subst hxe
      exact ⟨rfl, Or.inr ⟨hst, rfl, _, rfl, rfl⟩⟩
  | update itemId updates =>
    rcases updateEquipment_table w itemId updates with h | ⟨f, u, hs, hh, h⟩
    · simp only [LifecycleOp.run, h]
      exact List.forall₂_same.mpr (fun x _ => allows_refl _ x)
    · simp only [LifecycleOp.run, h]
      apply forall₂_map_update _ _ _ _ (allows_refl _)
      intro x _ _
      refine ⟨rfl, Or.inl ?_⟩
      simp [applyUpdates, hs, hh, hop.1, hop.2]

/-- Witness of C5, amended: a staff member updates the note of the chair. -/
theorem lifecycle_step_witness :
    LifecycleOp.restricted (.update "A1" { note := some "wobbly leg" }) ∧
    List.Forall₂ (LifecycleOp.allows (.update "A1" { note := some "wobbly leg" }))
      staffWorld.remote.equipment
      ((LifecycleOp.update "A1" { note := some "wobbly leg" }).run staffWorld).remote.equipment :=
  ⟨⟨rfl, rfl⟩, lifecycle_step staffWorld (.update "A1" { note := some "wobbly leg" }) ⟨rfl, rfl⟩⟩

/-! ## Import (C6, C7) -/

theorem createEquipment_ignores_facility (w : World) (item : EquipmentData) (f : Option Int) :
    createEquipment w { item with facility_id := f } = createEquipment w item := rfl


theorem importLoop_eq (facilityId : Int) (items : List EquipmentData) :
    ∀ (w : World) (acc : List Envelope),
      importLoop facilityId w (items.map .record) acc =
        (.ok (acc ++ (sequentialCreates w items).1), (sequentialCreates w items).2) := by
  induction items with
  | nil => intro w acc; simp [importLoop, sequentialCreates]
  | cons item rest ih =>
    intro w acc
    simp only [List.map_cons, importLoop, sequentialCreates,
      createEquipment_ignores_facility, ih, List.append_assoc, List.singleton_append]

theorem length_filter_success (results : List Envelope) :
    (results.filter (fun r => r.success)).length =
      results.length - (results.filter (fun r => !r.success)).length := by
  induction results with
  | nil => rfl
  | cons r rs ih =>
    have hle : (rs.filter (fun r => !r.success)).length ≤ rs.length := List.length_filter_le _ _
    cases hr : r.success <;> simp [List.filter_cons, hr, ih]
    omega

theorem insert_cases (r : Remote) (row : Equipment) :
    (∃ err, r.equipmentInsert row = (.error err, r.after (.equipmentInsert row.facility_id row.item_id))) ∨
    r.equipmentInsert row =
      (.ok [{ row with id := r.nextId }],
       { r.after (.equipmentInsert row.facility_id row.item_id) with
         equipment := r.equipment ++ [{ row with id := r.nextId }], nextId := r.nextId + 1 }) := by
  unfold Remote.equipmentInsert Remote.issue Remote.after
  cases hf : r.faults.head?.join with
  | some err => exact Or.inl ⟨err, rfl⟩
  | none => exact Or.inr rfl

theorem createEquipment_effect (w : World) (item : EquipmentData) (facilityId : Int)
    (hscope : facilityScope (getCurrentFacilityId w) = some facilityId) :
    (createEquipment w item).2.auth = w.auth ∧
    (((createEquipment w item).1.success = false ∧
        (createEquipment w item).2.remote.equipment = w.remote.equipment) ∨
      ((createEquipment w item).1.success = true ∧
        ∃ row : Equipment, row.facility_id = facilityId ∧
          (createEquipment w item).2.remote.equipment = w.remote.equipment ++ [row])) := by
  unfold createEquipment
  rw [hscope]
  by_cases hadm : isAdmin w = true
  · simp only [hadm, Bool.not_true, Bool.false_eq_true, if_false]
    cases hfile : item.imageFile with
    | none =>
      simp only []
      rcases insert_cases w.remote (insertedRow facilityId item "" w.now) with ⟨err, h⟩ | h
      · rw [h]; exact ⟨rfl, Or.inl ⟨rfl, rfl⟩⟩
      · rw [h]; exact ⟨rfl, Or.inr ⟨rfl, _, rfl, rfl⟩⟩
    | some file =>
      simp only []
      have hk := uploadImage_keeps w file facilityId item.item_id
      cases hup : uploadImage w file facilityId item.item_id with
      | mk res w1 =>
        rw [hup] at hk
        simp only at hk
        cases res with
        | error err => exact ⟨hk.2, Or.inl ⟨rfl, hk.1⟩⟩
        | ok imageUrl =>
          simp only []
          rcases insert_cases w1.remote (insertedRow facilityId item imageUrl w1.now)
            with ⟨err, h⟩ | h
          · rw [h]; exact ⟨hk.2, Or.inl ⟨rfl, hk.1⟩⟩
          · rw [h]
            refine ⟨hk.2, Or.inr ⟨rfl,
              { insertedRow facilityId item imageUrl w1.now with id := w1.remote.nextId },
              rfl, ?_⟩⟩
            rw [← hk.1]
  · simp only [hadm, Bool.not_false, if_true]
    simp at hadm
    simp [hadm, failure]

theorem sequentialCreates_effect (facilityId : Int) (items : List EquipmentData) :
    ∀ w : World, facilityScope (getCurrentFacilityId w) = some facilityId →
      (sequentialCreates w items).1.length = items.length ∧
      ∃ written : List Equipment,
        (sequentialCreates w items).2.remote.equipment = w.remote.equipment ++ written ∧
        written.length = ((sequentialCreates w items).1.filter (fun r => r.success)).length ∧
        ∀ x ∈ written, x.facility_id = facilityId := by
  induction items with
  | nil => intro w _; exact ⟨rfl, [], by simp [sequentialCreates], rfl, by simp⟩
  | cons item rest ih =>
    intro w hscope
    obtain ⟨hauth, hcase⟩ := createEquipment_effect w item facilityId hscope
    have hscope1 : facilityScope (getCurrentFacilityId (createEquipment w item).2) =
        some facilityId := by
      simpa [getCurrentFacilityId, hauth] using hscope
    obtain ⟨hlen, written, htab, hcount, hfac⟩ := ih (createEquipment w item).2 hscope1
    refine ⟨by simp [sequentialCreates, hlen], ?_⟩
    rcases hcase with ⟨hfail, hsame⟩ | ⟨hsucc, row, hrow, happ⟩
    · refine ⟨written, ?_, ?_, hfac⟩
      · simp only [sequentialCreates, htab, hsame]
      · simp [sequentialCreates, List.filter_cons, hfail, hcount]
    · refine ⟨row :: written, ?_, ?_, ?_⟩
      · simp only [sequentialCreates, htab, happ, List.append_assoc, List.singleton_append]
      · simp [sequentialCreates, List.filter_cons, hsucc, hcount]
      · intro x hx
        rcases List.mem_cons.mp hx with h | h
        · rw [h]; exact hrow
        · exact hfac x h

/-- C6: for an administrator with facility scope `facilityId` and a file that parses to an
array of `N` records, `importData` sends every record through `createEquipment` in file
order, a failure never stopping the ones after it, and resolves to
`successCount = N - K`, `failCount = K`, where `K` records fail in `createEquipment`; the
rows written are exactly `N - K` new rows at the end of the table, each with
`facility_id = facilityId`, whatever `facility_id` the file gave them. -/
theorem import_counts (w : World) (items : List EquipmentData) (facilityId : Int)
    (hadmin : isAdmin w = true)
    (hscope : facilityScope (getCurrentFacilityId w) = some facilityId) :
    (sequentialCreates w items).1.length = items.length ∧
    importData w (.array (items.map .record)) =
      (.resolved
        { success := true
          message := some (toString (items.length - failedCreates w items) ++
            "件のデータをインポートしました")
          successCount := some (items.length - failedCreates w items)
          failCount := some (failedCreates w items) },
       (sequentialCreates w items).2) ∧
    ∃ written : List Equipment,
      (importData w (.array (items.map .record))).2.remote.equipment =
        w.remote.equipment ++ written ∧
      written.length = items.length - failedCreates w items ∧
      ∀ x ∈ written, x.facility_id = facilityId := by
  obtain ⟨hlen, written, htab, hcount, hfac⟩ := sequentialCreates_effect facilityId items w hscope
  have hsucc := length_filter_success (sequentialCreates w items).1
  have hfail : (sequentialCreates w items).1.length -
      ((sequentialCreates w items).1.filter (fun r => r.success)).length =
      failedCreates w items := by
    have hle : ((sequentialCreates w items).1.filter (fun r => !r.success)).length ≤
        (sequentialCreates w items).1.length := List.length_filter_le _ _
    unfold failedCreates
    omega
  have himp : importData w (.array (items.map .record)) =
      (.resolved
        { success := true
          message := some (toString (items.length - failedCreates w items) ++
            "件のデータをインポートしました")
          successCount := some (items.length - failedCreates w items)
          failCount := some (failedCreates w items) },
       (sequentialCreates w items).2) := by
    unfold importData
    have hS : ((sequentialCreates w items).1.filter (fun r => r.success)).length =
        items.length - failedCreates w items := by
      rw [hsucc, hlen]; rfl
    simp only [hadmin, Bool.not_true, Bool.false_eq_true, if_false, hscope, importLoop_eq,
      List.nil_append]
    rw [hfail, hS]
  refine ⟨hlen, himp, written, ?_, ?_, hfac⟩
  · rw [himp]; exact htab
  · rw [hcount, hsucc, hlen]; rfl

/-- Witness of C6: three records exported at facility 99, imported at facility 3 while the
service refuses the second insert: two succeed, one fails. -/
theorem import_counts_witness :
    isAdmin importWorld = true ∧
    facilityScope (getCurrentFacilityId importWorld) = some 3 ∧
    (importData importWorld (.array (importItems.map .record))).1 =
      .resolved { success := true, message := some "2件のデータをインポートしました",
                  successCount := some 2, failCount := some 1 } :=
  ⟨by decide, by decide,
   (congrArg Prod.fst
      (import_counts importWorld importItems 3 (by decide) (by decide)).2.1).trans (by decide)⟩

/-- C7, the code at the failing input: for an administrator with a facility scope and a
file whose JSON value is not an array, the promise `importData` returns is rejected with
the invalid-format error instead of resolving to a failure envelope; nothing else
happens. -/
theorem import_not_array_rejects :
    isAdmin adminWorld = true ∧
    facilityScope (getCurrentFacilityId adminWorld) = some 3 ∧
    importData adminWorld .notArray = (.rejected "無効なデータ形式です", adminWorld) := by
  decide

/-! ## Session restoration (C8, C9) -/

/-- Counterexample to C8 as stated: an administrator is signed in in memory and the
persisted user id is absent; `restoreSession` reports failure, yet `isAuthenticated()`
and `isAdmin()` are still true afterwards. -/
theorem restore_keeps_prior_session_counterexample :
    lostKeyWorld.localStorage.stockeasy_user_id = none ∧
    (restoreSession lostKeyWorld).1.success = false ∧
    isAuthenticated (restoreSession lostKeyWorld).2 = true ∧
    isAdmin (restoreSession lostKeyWorld).2 = true := by
  decide


/-- C8, amended: when at least one of role, username, userId is absent from durable
storage, `restoreSession` reports failure with the session-not-found message and leaves
the in-memory session, durable storage and the service untouched; so `isAuthenticated()`
and `isAdmin()` are what they were before the call, and both are false afterwards when
both were false before, as on a freshly loaded page. -/
theorem restore_without_keys (w : World)
    (habsent : w.localStorage.stockeasy_role = none ∨ w.localStorage.stockeasy_username = none ∨
      w.localStorage.stockeasy_user_id = none) :
    restoreSession w =
      ({ success := false, message := some "セッション情報が見つかりません" }, w) ∧
    isAuthenticated (restoreSession w).2 = isAuthenticated w ∧
    isAdmin (restoreSession w).2 = isAdmin w ∧
    (isAuthenticated w = false → isAdmin w = false →
      isAuthenticated (restoreSession w).2 = false ∧ isAdmin (restoreSession w).2 = false) := by
  have h : restoreSession w =
      ({ success := false, message := some "セッション情報が見つかりません" }, w) := by
    unfold restoreSession
    rcases habsent with h | h | h <;> simp [h, truthyStr]
  rw [h]
  exact ⟨rfl, rfl, rfl, fun h1 h2 => ⟨h1, h2⟩⟩

/-- Witness of C8, amended: a freshly loaded page whose storage kept only the facility id
and the role. -/
theorem restore_without_keys_witness :
    (partialStorageWorld.localStorage.stockeasy_role = none ∨
      partialStorageWorld.localStorage.stockeasy_username = none ∨
      partialStorageWorld.localStorage.stockeasy_user_id = none) ∧
    (restoreSession partialStorageWorld).1.success = false ∧
    isAuthenticated (restoreSession partialStorageWorld).2 = false ∧
    isAdmin (restoreSession partialStorageWorld).2 = false :=
  have h := restore_without_keys partialStorageWorld (Or.inr (Or.inl rfl))
  ⟨Or.inr (Or.inl rfl), by rw [h.1], (h.2.2.2 rfl rfl).1, (h.2.2.2 rfl rfl).2⟩

/-- C9: when role, username and userId are present (non-empty) in durable storage and the
fetch of the administrator record (role `system_admin`) or user record (any other role)
by id answers with an error, `restoreSession` reports failure with that error's message
and the session is torn down: current user, facility id and role are null,
`isAuthenticated` is false, and all four persisted keys are removed. -/
theorem restore_fetch_error (w : World) (err : String)
    (hrole : truthyStr w.localStorage.stockeasy_role = true)
    (husername : truthyStr w.localStorage.stockeasy_username = true)
    (huserId : truthyStr w.localStorage.stockeasy_user_id = true)
    (hfetch : (if w.localStorage.stockeasy_role = some "system_admin"
        then (w.remote.adminUsersSingle (interp w.localStorage.stockeasy_user_id)).1
        else (w.remote.usersSingle (interp w.localStorage.stockeasy_user_id)).1) = .error err) :
    (restoreSession w).1.success = false ∧
    (restoreSession w).1.message =
      some (if err = "" then "セッションの復元に失敗しました" else err) ∧
    (restoreSession w).2.auth =
      { currentUser := none, facilityId := none, role := none, isAuthenticated := false } ∧
    isAuthenticated (restoreSession w).2 = false ∧
    (restoreSession w).2.localStorage =
      { stockeasy_facility_id := none, stockeasy_role := none, stockeasy_username := none,
        stockeasy_user_id := none } := by
  unfold restoreSession
  simp only [hrole, husername, huserId, Bool.not_true, Bool.or_self, Bool.false_eq_true, if_false]
  by_cases hsys : w.localStorage.stockeasy_role = some "system_admin"
  · simp only [hsys, if_true] at hfetch ⊢
    cases hres : w.remote.adminUsersSingle (interp w.localStorage.stockeasy_user_id) with
    | mk res r1 =>
      rw [hres] at hfetch
      simp only at hfetch
      subst hfetch
      exact ⟨rfl, rfl, rfl, rfl, rfl⟩
  · simp only [hsys, if_false] at hfetch ⊢
    cases hres : w.remote.usersSingle (interp w.localStorage.stockeasy_user_id) with
    | mk res r1 =>
      rw [hres] at hfetch
      simp only at hfetch
      subst hfetch
      exact ⟨rfl, rfl, rfl, rfl, rfl⟩

/-- Witness of C9: the persisted user id 42 names no row of `users`, so `.single()` answers
with an error. -/
theorem restore_fetch_error_witness :
    truthyStr orphanWorld.localStorage.stockeasy_role = true ∧
    truthyStr orphanWorld.localStorage.stockeasy_username = true ∧
    truthyStr orphanWorld.localStorage.stockeasy_user_id = true ∧
    (orphanWorld.remote.usersSingle "42").1 = .error singleRowError ∧
    (restoreSession orphanWorld).1.success = false ∧
    (restoreSession orphanWorld).2.auth =
      { currentUser := none, facilityId := none, role := none, isAuthenticated := false } ∧
    (restoreSession orphanWorld).2.localStorage = ⟨none, none, none, none⟩ :=
  have h := restore_fetch_error orphanWorld singleRowError (by decide) (by decide) (by decide)
    rfl
  ⟨by decide, by decide, by decide, rfl, h.1, h.2.2.1, h.2.2.2.2⟩

/-! ## Login (C10) -/

/-- C10, the code at the failing input: a staff member of facility 3 is signed in (so the
facility key holds `"3"`) and the system administrator then logs in; the login succeeds,
the new session has facility id null and role `system_admin`, but durable storage still
holds facility id `"3"`: the facility id of the new session is not what is persisted. -/
theorem loginAdmin_keeps_stale_facility :
    (loginAdmin staffWorld "admin" "secret").1.success = true ∧
    getCurrentFacilityId (loginAdmin staffWorld "admin" "secret").2 = none ∧
    getCurrentRole (loginAdmin staffWorld "admin" "secret").2 = some "system_admin" ∧
    (loginAdmin staffWorld "admin" "secret").2.localStorage =
      ⟨some "3", some "system_admin", some "admin", some "1"⟩ := by
  decide

theorem getEquipment_log (w : World) (filters : Filters)
    (hscope : truthyNum (getCurrentFacilityId w) = true) :
    (getEquipment w filters).2.remote.log =
      w.remote.log ++ [.equipmentSelect (buildQuery (getCurrentFacilityId w) filters)] := by
  unfold getEquipment
  simp only [hscope, Bool.not_true, Bool.false_and, Bool.false_eq_true, if_false,
    Remote.equipmentSelect, Remote.issue]
  cases w.remote.faults.head?.join <;> rfl

theorem login_establishes_session (w : World) (facilityId : Int)
    (username password role : String)
    (hsuccess : (login w facilityId username password role).1.success = true) :
    isAuthenticated (login w facilityId username password role).2 = true ∧
    getCurrentFacilityId (login w facilityId username password role).2 =
      some (.int facilityId) ∧
    getCurrentRole (login w facilityId username password role).2 = some role ∧
    (∃ user : UserRecord,
      getCurrentUser (login w facilityId username password role).2 = some user ∧
      (login w facilityId username password role).1.user = some user ∧
      (login w facilityId username password role).2.localStorage =
        ⟨some (toString facilityId), some role, some username, some (toString user.id)⟩) ∧
    (facilityId ≠ 0 → ∀ filters : Filters, ∃ q : EquipmentQuery,
      q.facility_id = some facilityId ∧
      (getEquipment (login w facilityId username password role).2 filters).2.remote.log =
        (login w facilityId username password role).2.remote.log ++ [.equipmentSelect q]) := by
  have hfac : getCurrentFacilityId (login w facilityId username password role).2 =
      some (.int facilityId) := by
    unfold login at hsuccess ⊢
    cases hsel : w.remote.usersSelect facilityId username role with
    | mk res r1 =>
      rw [hsel] at hsuccess
      cases res with
      | error err => simp [sessionFailure] at hsuccess
      | ok users =>
        cases users with
        | nil => simp [sessionFailure] at hsuccess
        | cons user rest => rfl
  refine ⟨?_, hfac, ?_, ?_, ?_⟩
  · unfold login at hsuccess ⊢
    cases hsel : w.remote.usersSelect facilityId username role with
    | mk res r1 =>
      rw [hsel] at hsuccess
      cases res with
      | error err => simp [sessionFailure] at hsuccess
      | ok users =>
        cases users with
        | nil => simp [sessionFailure] at hsuccess
        | cons user rest => rfl
  · unfold login at hsuccess ⊢
    cases hsel : w.remote.usersSelect facilityId username role with
    | mk res r1 =>
      rw [hsel] at hsuccess
      cases res with
      | error err => simp [sessionFailure] at hsuccess
      | ok users =>
        cases users with
        | nil => simp [sessionFailure] at hsuccess
        | cons user rest => rfl
  · unfold login at hsuccess ⊢
    cases hsel : w.remote.usersSelect facilityId username role with
    | mk res r1 =>
      rw [hsel] at hsuccess
      cases res with
      | error err => simp [sessionFailure] at hsuccess
      | ok users =>
        cases users with
        | nil => simp [sessionFailure] at hsuccess
        | cons user rest => exact ⟨user, rfl, rfl, rfl⟩
  · intro hne filters
    refine ⟨buildQuery (getCurrentFacilityId (login w facilityId username password role).2)
      filters, ?_, getEquipment_log _ filters ?_⟩
    · rw [hfac]; simp [buildQuery, facilityScope, hne]
    · rw [hfac]; simp [truthyNum, hne]


/-! ## Deletion and image upload (C11, C12) -/

theorem storageRemove_cases (r : Remote) (paths : List String) :
    (∃ err, r.storageRemove paths = (some err, r.after (.storageRemove paths))) ∨
    r.storageRemove paths =
      (none, { r.after (.storageRemove paths) with
               images := r.images.filter (fun p => !paths.contains p) }) := by
  unfold Remote.storageRemove Remote.issue Remote.after
  cases hf : r.faults.head?.join with
  | some err => exact Or.inl ⟨err, rfl⟩
  | none => exact Or.inr rfl

/-- C11: for an administrator with a facility scope, `deleteEquipment` runs through one of
four courses, read off the request log. The fetch answers with an error: only the fetch is
logged, table and stored images are untouched, and the failure envelope carries that
error. The fetch succeeds, the record has a non-empty `image_url` and `deleteImage`
faults: fetch and image removal are logged, no record deletion is requested, the table is
untouched, and the failure envelope carries the fault. The fetch succeeds and the image is
removed without fault: the record deletion is requested after both. The fetch succeeds and
`image_url` is empty: the record deletion is requested right after the fetch. -/
theorem delete_after_fetch_and_image (w : World) (itemId : String) (facilityId : Int)
    (hadmin : isAdmin w = true)
    (hscope : facilityScope (getCurrentFacilityId w) = some facilityId) :
    (∀ err, (w.remote.equipmentSingle facilityId itemId).1 = .error err →
      (deleteEquipment w itemId).1 = failure err "備品の削除に失敗しました" ∧
      (deleteEquipment w itemId).2.remote.log =
        w.remote.log ++ [.equipmentSingle facilityId itemId] ∧
      (deleteEquipment w itemId).2.remote.equipment = w.remote.equipment ∧
      (deleteEquipment w itemId).2.remote.images = w.remote.images) ∧
    (∀ e, (w.remote.equipmentSingle facilityId itemId).1 = .ok e →
      truthyStr e.image_url = true →
      ∀ err, ((w.remote.equipmentSingle facilityId itemId).2.storageRemove
          [interp e.image_url]).1 = some err →
        (deleteEquipment w itemId).1 = failure err "備品の削除に失敗しました" ∧
        (deleteEquipment w itemId).2.remote.log =
          w.remote.log ++ [.equipmentSingle facilityId itemId,
            .storageRemove [interp e.image_url]] ∧
        (deleteEquipment w itemId).2.remote.equipment = w.remote.equipment) ∧
    (∀ e, (w.remote.equipmentSingle facilityId itemId).1 = .ok e →
      truthyStr e.image_url = true →
      ((w.remote.equipmentSingle facilityId itemId).2.storageRemove
          [interp e.image_url]).1 = none →
        (deleteEquipment w itemId).2.remote.log =
          w.remote.log ++ [.equipmentSingle facilityId itemId,
            .storageRemove [interp e.image_url], .equipmentDelete facilityId itemId]) ∧
    (∀ e, (w.remote.equipmentSingle facilityId itemId).1 = .ok e →
      truthyStr e.image_url = false →
        (deleteEquipment w itemId).2.remote.log =
          w.remote.log ++ [.equipmentSingle facilityId itemId,
            .equipmentDelete facilityId itemId]) := by
  have hnot : (!isAdmin w) = false := by simp [hadmin]
  rcases equipmentSingle_cases w.remote facilityId itemId with ⟨err0, h1⟩ | ⟨e0, _, h1⟩
  · refine ⟨?_, ?_, ?_, ?_⟩
    · intro err herr
      rw [h1] at herr
      simp only [Except.error.injEq] at herr
      subst herr
      unfold deleteEquipment
      rw [hscope]
      simp only [hnot, Bool.false_eq_true, if_false, h1]
      simp [hnot, Remote.after]
    · intro e he; rw [h1] at he; cases he
    · intro e he; rw [h1] at he; cases he
    · intro e he; rw [h1] at he; cases he
  · refine ⟨?_, ?_, ?_, ?_⟩
    · intro err herr; rw [h1] at herr; cases herr
    · intro e he htruthy err hrm
      rw [h1] at he hrm
      simp only [Except.ok.injEq] at he
      subst he
      simp only at hrm
      rcases storageRemove_cases (w.remote.after (.equipmentSingle facilityId itemId))
        [interp e0.image_url] with ⟨err2, h2⟩ | h2
      · rw [h2] at hrm
        simp only [Option.some.injEq] at hrm
        subst hrm
        unfold deleteEquipment
        rw [hscope]
        simp only [hnot, Bool.false_eq_true, if_false, h1]
        simp only [htruthy, if_true, deleteImage, Bool.not_true, Bool.false_eq_true, if_false,
          h2]
        simp [Remote.after]
      · rw [h2] at hrm; cases hrm
    · intro e he htruthy hrm
      rw [h1] at he hrm
      simp only [Except.ok.injEq] at he
      subst he
      simp only at hrm
      rcases storageRemove_cases (w.remote.after (.equipmentSingle facilityId itemId))
        [interp e0.image_url] with ⟨err2, h2⟩ | h2
      · rw [h2] at hrm; cases hrm
      · unfold deleteEquipment
        rw [hscope]
        simp only [hnot, Bool.false_eq_true, if_false, h1]
        simp only [htruthy, if_true, deleteImage, Bool.not_true, Bool.false_eq_true, if_false,
          h2]
        simp only [Remote.equipmentDelete, Remote.issue, Remote.after]
        cases hf : w.remote.faults.tail.tail.head?.join <;> simp
    · intro e he hfalsy
      rw [h1] at he
      simp only [Except.ok.injEq] at he
      subst he
      unfold deleteEquipment
      rw [hscope]
      simp only [hnot, Bool.false_eq_true, if_false, h1]
      simp only [hfalsy, Bool.false_eq_true, if_false]
      simp only [Remote.equipmentDelete, Remote.issue, Remote.after]
      cases hf : w.remote.faults.tail.head?.join <;> simp


/-- Witness of C11: the storage refuses to remove the lamp's picture; the lamp stays in the
table and no record deletion is requested. -/
theorem delete_after_fetch_and_image_witness :
    isAdmin storageDownWorld = true ∧
    facilityScope (getCurrentFacilityId storageDownWorld) = some 3 ∧
    (storageDownWorld.remote.equipmentSingle 3 "L1").1 = .ok lamp ∧
    truthyStr lamp.image_url = true ∧
    (deleteEquipment storageDownWorld "L1").1 =
      { success := false, message := some "storage unavailable" } ∧
    (deleteEquipment storageDownWorld "L1").2.remote.log =
      [.equipmentSingle 3 "L1", .storageRemove ["facility_3/L1_50.png"]] ∧
    (deleteEquipment storageDownWorld "L1").2.remote.equipment = [chair, wheelchair, lamp] :=
  have h := (delete_after_fetch_and_image storageDownWorld "L1" 3 (by decide) (by decide)).2.1
    lamp rfl (by decide) "storage unavailable" (by decide)
  ⟨by decide, by decide, rfl, by decide, h.1, h.2.1, h.2.2⟩

theorem uploadImage_no_insert (w : World) (file : ImageFile) (facilityId : Int)
    (itemId : Option String) (fac : Int) (item : Option String)
    (hmem : Call.equipmentInsert fac item ∈ (uploadImage w file facilityId itemId).2.remote.log) :
    Call.equipmentInsert fac item ∈ w.remote.log := by
  have hup : ∀ (r : Remote) (p : String),
      (r.storageUpload p).2.log = r.log ++ [.storageUpload p] := by
    intro r p
    unfold Remote.storageUpload Remote.issue
    cases r.faults.head?.join <;> rfl
  have hrm : ∀ (r : Remote) (ps : List String),
      (r.storageRemove ps).2.log = r.log ++ [.storageRemove ps] := by
    intro r ps
    unfold Remote.storageRemove Remote.issue
    cases r.faults.head?.join <;> rfl
  have hls : ∀ (r : Remote) (d : String) (t : Option String),
      (r.storageList d t).2.log = r.log ++ [.storageList d t] := by
    intro r d t
    unfold Remote.storageList Remote.issue
    cases r.faults.head?.join <;> rfl
  unfold uploadImage at hmem
  simp only [] at hmem
  split at hmem <;> (simp only [hup] at hmem; split at hmem <;>
    simp only [hrm, hls] at hmem <;> simpa using hmem)

theorem insert_cases_oracle (r : Remote) (row : Equipment) :
    (∃ err, r.faults.head?.join = some err ∧
      r.equipmentInsert row =
        (.error err, r.after (.equipmentInsert row.facility_id row.item_id))) ∨
    (r.faults.head?.join = none ∧
      r.equipmentInsert row =
        (.ok [{ row with id := r.nextId }],
         { r.after (.equipmentInsert row.facility_id row.item_id) with
           equipment := r.equipment ++ [{ row with id := r.nextId }],
           nextId := r.nextId + 1 })) := by
  unfold Remote.equipmentInsert Remote.issue Remote.after
  cases hf : r.faults.head?.join with
  | some err => exact Or.inl ⟨err, rfl, rfl⟩
  | none => exact Or.inr ⟨rfl, rfl⟩

theorem uploadImage_path (w : World) (file : ImageFile) (facilityId : Int)
    (itemId : Option String) (path : String)
    (h : (uploadImage w file facilityId itemId).1 = .ok path) :
    path = imagePath file facilityId itemId w.now := by
  unfold uploadImage at h
  simp only [] at h
  split at h
  · cases h
  · simp only [Except.ok.injEq] at h
    rw [← h]
    rfl

/-- C12: for an administrator with a facility scope and equipment data carrying an image
payload. If `uploadImage` faults, `createEquipment` returns the failure envelope built from
the upload error, leaves the world as the upload left it, writes no record and requests no
insert. If `uploadImage` returns a path, that path is the one the upload stored the file
under, exactly one more request follows the upload, the insert for the caller's facility
and the record's `item_id`, and every row the call adds to the table has exactly that
path as `image_url`; when the service answers the insert, `createEquipment` succeeds and
the returned record is the new last row of the table, with that path as `image_url`; and
whenever `createEquipment` succeeds, the returned record is that row. -/
theorem create_with_image (w : World) (equipmentData : EquipmentData) (file : ImageFile)
    (facilityId : Int)
    (hadmin : isAdmin w = true)
    (hscope : facilityScope (getCurrentFacilityId w) = some facilityId)
    (hfile : equipmentData.imageFile = some file) :
    (∀ err, (uploadImage w file facilityId equipmentData.item_id).1 = .error err →
      createEquipment w equipmentData =
        (failure err "備品の登録に失敗しました",
         (uploadImage w file facilityId equipmentData.item_id).2) ∧
      (createEquipment w equipmentData).2.remote.equipment = w.remote.equipment ∧
      ∀ fac item, Call.equipmentInsert fac item ∈ (createEquipment w equipmentData).2.remote.log →
        Call.equipmentInsert fac item ∈ w.remote.log) ∧
    (∀ path, (uploadImage w file facilityId equipmentData.item_id).1 = .ok path →
      path = imagePath file facilityId equipmentData.item_id w.now ∧
      (createEquipment w equipmentData).2.remote.log =
        (uploadImage w file facilityId equipmentData.item_id).2.remote.log ++
          [.equipmentInsert facilityId equipmentData.item_id] ∧
      (∀ row ∈ (createEquipment w equipmentData).2.remote.equipment,
        row ∈ w.remote.equipment ∨ row.image_url = some path) ∧
      ((uploadImage w file facilityId equipmentData.item_id).2.remote.faults.head?.join = none →
        (createEquipment w equipmentData).1.success = true ∧
        ∃ row : Equipment, (createEquipment w equipmentData).1.data = some row ∧
          row.image_url = some path ∧ row.facility_id = facilityId ∧
          row.item_id = equipmentData.item_id ∧
          (createEquipment w equipmentData).2.remote.equipment =
            w.remote.equipment ++ [row]) ∧
      ((createEquipment w equipmentData).1.success = true →
        ∃ row : Equipment, (createEquipment w equipmentData).1.data = some row ∧
          row.image_url = some path ∧
          (createEquipment w equipmentData).2.remote.equipment =
            w.remote.equipment ++ [row])) := by
  have hnot : (!isAdmin w) = false := by simp [hadmin]
  have hk := uploadImage_keeps w file facilityId equipmentData.item_id
  have hlog := uploadImage_no_insert w file facilityId equipmentData.item_id
  have hpathEq := uploadImage_path w file facilityId equipmentData.item_id
  cases hup : uploadImage w file facilityId equipmentData.item_id with
  | mk res w1 =>
    rw [hup] at hk hlog hpathEq
    simp only at hk hlog hpathEq
    have hcreate : createEquipment w equipmentData =
        match res with
        | .error err => (failure err "備品の登録に失敗しました", w1)
        | .ok imageUrl =>
          match w1.remote.equipmentInsert (insertedRow facilityId equipmentData imageUrl w1.now)
            with
          | (.error err, r1) => (failure err "備品の登録に失敗しました", { w1 with remote := r1 })
          | (.ok [], r1) =>
            (failure "Cannot read properties of undefined (reading 'id')"
              "備品の登録に失敗しました", { w1 with remote := r1 })
          | (.ok (d :: _), r1) =>
            ({ success := true, data := some d }, { w1 with remote := r1 }) := by
      unfold createEquipment
      rw [hscope]
      simp only [hnot, Bool.false_eq_true, if_false, hfile, hup]
      cases res <;> rfl
    refine ⟨?_, ?_⟩
    · intro err herr
      simp only at herr
      subst herr
      rw [hcreate]
      exact ⟨rfl, hk.1, fun fac item h => hlog fac item h⟩
    · intro path hpath
      have hp := hpathEq path hpath
      simp only at hpath
      subst hpath
      rw [hcreate]
      simp only []
      rcases insert_cases_oracle w1.remote (insertedRow facilityId equipmentData path w1.now)
        with ⟨err, hhead, h⟩ | ⟨hhead, h⟩
      · rw [h]
        refine ⟨hp, rfl, ?_, ?_, ?_⟩
        · intro row hrow
          left
          have : row ∈ w1.remote.equipment := hrow
          rw [hk.1] at this
          exact this
        · intro hnone
          rw [hhead] at hnone
          cases hnone
        · intro hs
          simp [failure] at hs
      · rw [h]
        refine ⟨hp, rfl, ?_, ?_, ?_⟩
        · intro row hrow
          have hrow2 : row ∈ w1.remote.equipment ++
              [{ insertedRow facilityId equipmentData path w1.now with
                 id := w1.remote.nextId }] := hrow
          rcases List.mem_append.mp hrow2 with h3 | h3
          · left; rw [hk.1] at h3; exact h3
          · right
            rw [List.mem_singleton] at h3
            rw [h3]; rfl
        · intro _
          refine ⟨rfl, { insertedRow facilityId equipmentData path w1.now with
                         id := w1.remote.nextId }, rfl, rfl, rfl, rfl, ?_⟩
          rw [← hk.1]
        · intro _
          refine ⟨{ insertedRow facilityId equipmentData path w1.now with
                    id := w1.remote.nextId }, rfl, rfl, ?_⟩
          rw [← hk.1]

/-- Witness of C12: with every request answered, the desk is created with the path of its
uploaded picture as `image_url`; when the storage refuses the upload, no record is
written. -/
theorem create_with_image_witness :
    isAdmin adminWorld = true ∧
    facilityScope (getCurrentFacilityId adminWorld) = some 3 ∧
    (uploadImage adminWorld ⟨"desk.png"⟩ 3 (some "D4")).1 =
      .ok (imagePath ⟨"desk.png"⟩ 3 (some "D4") 100) ∧
    (uploadImage adminWorld ⟨"desk.png"⟩ 3 (some "D4")).2.remote.faults.head?.join = none ∧
    (createEquipment adminWorld
        { item_id := some "D4", name := some "Desk", imageFile := some ⟨"desk.png"⟩ }).1.success
      = true ∧
    (∃ row : Equipment,
      (createEquipment adminWorld
        { item_id := some "D4", name := some "Desk",
          imageFile := some ⟨"desk.png"⟩ }).1.data = some row ∧
      row.image_url = some (imagePath ⟨"desk.png"⟩ 3 (some "D4") 100) ∧
      (createEquipment adminWorld
        { item_id := some "D4", name := some "Desk",
          imageFile := some ⟨"desk.png"⟩ }).2.remote.equipment = [chair, wheelchair, row]) ∧
    (uploadImage uploadRefusedWorld ⟨"desk.png"⟩ 3 (some "D4")).1 = .error "Payload too large" ∧
    (createEquipment uploadRefusedWorld
        { item_id := some "D4", name := some "Desk", imageFile := some ⟨"desk.png"⟩ }).1 =
      { success := false, message := some "Payload too large" } ∧
    (createEquipment uploadRefusedWorld
        { item_id := some "D4", name := some "Desk",
          imageFile := some ⟨"desk.png"⟩ }).2.remote.equipment = [chair, wheelchair] :=
  have hok := ((create_with_image adminWorld
    { item_id := some "D4", name := some "Desk", imageFile := some ⟨"desk.png"⟩ } ⟨"desk.png"⟩ 3
    (by decide) (by decide) rfl).2 (imagePath ⟨"desk.png"⟩ 3 (some "D4") 100) rfl).2.2.2.1 rfl
  have h := (create_with_image uploadRefusedWorld
    { item_id := some "D4", name := some "Desk", imageFile := some ⟨"desk.png"⟩ } ⟨"desk.png"⟩ 3
    (by decide) (by decide) rfl).1 "Payload too large" rfl
  ⟨by decide, by decide, rfl, rfl, hok.1,
   hok.2.elim (fun row hrow => ⟨row, hrow.1, hrow.2.1, hrow.2.2.2.2⟩),
   rfl, by rw [h.1]; rfl, h.2.1⟩

/-! ## The compatibility bridge (C13) -/

/-- C13: whatever `window.StockEasyEquipment` holds, a call that matches none of the four
routes (url containing `/equipment` with method `GET` or `POST`, url containing
`/equipment/` with method `PUT` or `DELETE`; a missing method matches none) leaves the
world untouched and resolves to the response with `ok = false` whose `json()` yields the
unsupported-call envelope, so no operation was invoked. On the three mutating routes,
when the body parses, the response's `ok` is the `success` flag of the envelope that
`createEquipment`, `updateEquipment` (on the last path segment) or `deleteEquipment`
returned, and `json()` yields that envelope. -/
theorem apiCall_routes (equipment : EquipmentModule) (w : World) (url : String)
    (options : Options) :
    (¬ (includes url "/equipment" = true ∧
          (options.method = some "GET" ∨ options.method = some "POST")) →
      ¬ (includes url "/equipment/" = true ∧
          (options.method = some "PUT" ∨ options.method = some "DELETE")) →
      apiCall equipment w url options = (.resolved unsupportedResponse, w) ∧
      unsupportedResponse.ok = false ∧
      Response.runJson equipment w unsupportedResponse =
        (.resolved (.envelope { success := false, message := some "Unsupported API call" }),
         w)) ∧
    (includes url "/equipment" = true → options.method = some "POST" →
      ∀ data updates, options.body = .value data updates →
        apiCall StockEasyEquipment w url options =
          (.resolved { ok := (createEquipment w data).1.success,
                       json := .result (createEquipment w data).1 },
           (createEquipment w data).2)) ∧
    (includes url "/equipment/" = true → options.method = some "PUT" →
      ∀ data updates, options.body = .value data updates →
        apiCall StockEasyEquipment w url options =
          (.resolved
            { ok := (updateEquipment w (((url.splitOn "/").getLast?).getD "") updates).1.success,
              json := .result
                (updateEquipment w (((url.splitOn "/").getLast?).getD "") updates).1 },
           (updateEquipment w (((url.splitOn "/").getLast?).getD "") updates).2)) ∧
    (includes url "/equipment/" = true → options.method = some "DELETE" →
      apiCall StockEasyEquipment w url options =
        (.resolved
          { ok := (deleteEquipment w (((url.splitOn "/").getLast?).getD "")).1.success,
            json := .result (deleteEquipment w (((url.splitOn "/").getLast?).getD "")).1 },
         (deleteEquipment w (((url.splitOn "/").getLast?).getD "")).2)) := by
  refine ⟨?_, ?_, ?_, ?_⟩
  · intro h1 h2
    refine ⟨?_, rfl, rfl⟩
    unfold apiCall unsupportedResponse
    by_cases hu : includes url "/equipment" = true
    · by_cases hu2 : includes url "/equipment/" = true
      · have hg : options.method ≠ some "GET" := fun h => h1 ⟨hu, Or.inl h⟩
        have hp : options.method ≠ some "POST" := fun h => h1 ⟨hu, Or.inr h⟩
        have hput : options.method ≠ some "PUT" := fun h => h2 ⟨hu2, Or.inl h⟩
        have hd : options.method ≠ some "DELETE" := fun h => h2 ⟨hu2, Or.inr h⟩
        simp [hu, hu2, hg, hp, hput, hd]
      · have hg : options.method ≠ some "GET" := fun h => h1 ⟨hu, Or.inl h⟩
        have hp : options.method ≠ some "POST" := fun h => h1 ⟨hu, Or.inr h⟩
        simp [hu, hu2, hg, hp]
    · by_cases hu2 : includes url "/equipment/" = true
      · have hput : options.method ≠ some "PUT" := fun h => h2 ⟨hu2, Or.inl h⟩
        have hd : options.method ≠ some "DELETE" := fun h => h2 ⟨hu2, Or.inr h⟩
        simp [hu, hu2, hput, hd]
      · simp [hu, hu2]
  · intro hu hm data updates hb
    unfold apiCall
    simp [hu, hm, hb, registerItemToSupabase, StockEasyEquipment]
  · intro hu hm data updates hb
    unfold apiCall
    simp [hu, hm, hb, updateItemInSupabase, StockEasyEquipment]
  · intro hu hm
    unfold apiCall
    simp [hu, hm, deleteItemFromSupabase, StockEasyEquipment]

/-- Witness of C13: a `PATCH` on `/api/equipment/A1`. -/
theorem apiCall_routes_witness :
    ¬ (includes "/api/equipment/A1" "/equipment" = true ∧
        ((some "PATCH" : Option String) = some "GET" ∨
          (some "PATCH" : Option String) = some "POST")) ∧
    ¬ (includes "/api/equipment/A1" "/equipment/" = true ∧
        ((some "PATCH" : Option String) = some "PUT" ∨
          (some "PATCH" : Option String) = some "DELETE")) ∧
    apiCall StockEasyEquipment adminWorld "/api/equipment/A1" { method := some "PATCH" } =
      (.resolved unsupportedResponse, adminWorld) :=
  ⟨by decide, by decide,
   ((apiCall_routes StockEasyEquipment adminWorld "/api/equipment/A1"
      { method := some "PATCH" }).1 (by decide) (by decide)).1⟩

/-! ## Passwords (C14) -/

/-- C14: `login` and `loginAdmin` return the same result and leave the same world for any
two passwords; when the query is answered, `login` succeeds exactly when `users` holds a
row with that facility, username and role, and `loginAdmin` exactly when `admin_users`
holds a row with that username. -/
theorem login_ignores_password (w : World) (facilityId : Int)
    (username role p1 p2 : String) :
    login w facilityId username p1 role = login w facilityId username p2 role ∧
    loginAdmin w username p1 = loginAdmin w username p2 ∧
    (w.remote.faults.head?.join = none →
      ((login w facilityId username p1 role).1.success = true ↔
        ∃ u ∈ w.remote.users,
          u.facility_id = facilityId ∧ u.username = username ∧ u.role = role) ∧
      ((loginAdmin w username p1).1.success = true ↔
        ∃ a ∈ w.remote.admin_users, a.username = username)) := by
  refine ⟨rfl, rfl, ?_⟩
  intro hf
  constructor
  · unfold login Remote.usersSelect Remote.issue
    rw [hf]
    simp only []
    cases hl : w.remote.users.filter (fun u =>
        u.facility_id == facilityId && u.username == username && u.role == role) with
    | nil =>
      have hnone : ¬ ∃ u ∈ w.remote.users,
          u.facility_id = facilityId ∧ u.username = username ∧ u.role = role := by
        rintro ⟨u, hu, h1, h2, h3⟩
        have : u ∈ w.remote.users.filter (fun u =>
            u.facility_id == facilityId && u.username == username && u.role == role) :=
          List.mem_filter.mpr ⟨hu, by simp [h1, h2, h3]⟩
        rw [hl] at this
        cases this
      simp [sessionFailure, hnone]
    | cons a t =>
      have ha : a ∈ w.remote.users.filter (fun u =>
          u.facility_id == facilityId && u.username == username && u.role == role) := by
        rw [hl]; exact List.mem_cons_self _ _
      have ha2 := List.mem_filter.mp ha
      have hex : ∃ u ∈ w.remote.users,
          u.facility_id = facilityId ∧ u.username = username ∧ u.role = role :=
        ⟨a, ha2.1, by simpa [and_assoc] using ha2.2⟩
      simp [hex]
  · unfold loginAdmin Remote.adminUsersSelect Remote.issue
    rw [hf]
    simp only []
    cases hl : w.remote.admin_users.filter (fun a => a.username == username) with
    | nil =>
      have hnone : ¬ ∃ a ∈ w.remote.admin_users, a.username = username := by
        rintro ⟨a, ha, h1⟩
        have : a ∈ w.remote.admin_users.filter (fun a => a.username == username) :=
          List.mem_filter.mpr ⟨ha, by simp [h1]⟩
        rw [hl] at this
        cases this
      simp [sessionFailure, hnone]
    | cons a t =>
      have ha : a ∈ w.remote.admin_users.filter (fun a => a.username == username) := by
        rw [hl]; exact List.mem_cons_self _ _
      have ha2 := List.mem_filter.mp ha
      have hex : ∃ a ∈ w.remote.admin_users, a.username = username :=
        ⟨a, ha2.1, by simpa using ha2.2⟩
      simp [hex]


/-- Witness of C14: the staff user of facility 3 is let in with any password, an unknown
user with none. -/
theorem login_ignores_password_witness :
    guestWorld.remote.faults.head?.join = none ∧
    login guestWorld 3 "staff" "correct horse" "staff" =
      login guestWorld 3 "staff" "wrong" "staff" ∧
    (login guestWorld 3 "staff" "wrong" "staff").1.success = true ∧
    ((login guestWorld 3 "nobody" "wrong" "staff").1.success = true → False) :=
  ⟨by decide,
   (login_ignores_password guestWorld 3 "staff" "staff" "correct horse" "wrong").1,
   ((login_ignores_password guestWorld 3 "staff" "staff" "wrong" "wrong").2.2
      (by decide)).1.mpr ⟨⟨5, "staff", "h5", "staff", 3⟩, by decide, by decide⟩,
   fun h => by
     have h2 := ((login_ignores_password guestWorld 3 "nobody" "staff" "wrong" "wrong").2.2
       (by decide)).1.mp h
     revert h2
     decide⟩

/-! ## Restored role and facility (C15) -/

/-- Counterexample to C15 as stated: durable storage names staff user 5 of facility 3 but
holds the role `admin` and facility id 9; `restoreSession` succeeds, the fetched record
says `staff` and facility 3, yet the session has role `admin` and facility 9 and
`isAdmin()` is true. -/
theorem restore_trusts_storage_counterexample :
    (restoreSession tamperedWorld).1.success = true ∧
    tamperedWorld.localStorage.stockeasy_role ≠ some "system_admin" ∧
    (tamperedWorld.remote.usersSingle "5").1 =
      .ok ⟨5, "staff", none, some "staff", some 3⟩ ∧
    getCurrentUser (restoreSession tamperedWorld).2 =
      some ⟨5, "staff", none, some "staff", some 3⟩ ∧
    getCurrentRole (restoreSession tamperedWorld).2 = some "admin" ∧
    getCurrentFacilityId (restoreSession tamperedWorld).2 = some (.int 9) ∧
    isAdmin (restoreSession tamperedWorld).2 = true := by
  refine ⟨by decide, by decide, rfl, by decide, by decide, by decide, by decide⟩


/-- C15, amended: after a successful `restoreSession` with a persisted role other than
`system_admin`, the session's role is the persisted role; its facility id is null when no
facility id is persisted and otherwise `parseInt` of the persisted facility id, which is
stated for a persisted id whose value stays within the Number range (below 2^1024 in
magnitude), where `parseInt` is finite or `NaN`; the current user is the record fetched
from `users` by the persisted id; `isAdmin()` is true exactly when the persisted role is
`admin`. -/
theorem restore_uses_persisted_scope (w : World)
    (hsuccess : (restoreSession w).1.success = true)
    (hrole : w.localStorage.stockeasy_role ≠ some "system_admin") :
    getCurrentRole (restoreSession w).2 = w.localStorage.stockeasy_role ∧
    ((∀ v : Int, parseInt (interp w.localStorage.stockeasy_facility_id) = .int v →
        v.natAbs < 2 ^ 1024) →
      getCurrentFacilityId (restoreSession w).2 =
        (if truthyStr w.localStorage.stockeasy_facility_id
          then some (parseInt (interp w.localStorage.stockeasy_facility_id)) else none)) ∧
    (∃ record : UserRecord,
      (w.remote.usersSingle (interp w.localStorage.stockeasy_user_id)).1 = .ok record ∧
      getCurrentUser (restoreSession w).2 = some record) ∧
    (isAdmin (restoreSession w).2 = true ↔ w.localStorage.stockeasy_role = some "admin") := by
  unfold restoreSession at hsuccess ⊢
  by_cases hguard : (!truthyStr w.localStorage.stockeasy_role ||
      !truthyStr w.localStorage.stockeasy_username ||
      !truthyStr w.localStorage.stockeasy_user_id) = true
  · simp [hguard] at hsuccess
  · simp only [hguard, if_false, hrole] at hsuccess ⊢
    cases hres : w.remote.usersSingle (interp w.localStorage.stockeasy_user_id) with
    | mk res r1 =>
      rw [hres] at hsuccess
      cases res with
      | error err => simp [restoreFailed, sessionFailure] at hsuccess
      | ok user =>
        refine ⟨rfl, fun _ => rfl, ⟨user, rfl, rfl⟩, ?_⟩
        simp [isAdmin, hrole]

/-- Witness of C15, amended: the storage that claims role `admin` and facility 9. -/
theorem restore_uses_persisted_scope_witness :
    (restoreSession tamperedWorld).1.success = true ∧
    tamperedWorld.localStorage.stockeasy_role ≠ some "system_admin" ∧
    parseInt (interp tamperedWorld.localStorage.stockeasy_facility_id) = .int 9 ∧
    getCurrentRole (restoreSession tamperedWorld).2 = some "admin" ∧
    getCurrentFacilityId (restoreSession tamperedWorld).2 = some (.int 9) ∧
    (isAdmin (restoreSession tamperedWorld).2 = true ↔
      tamperedWorld.localStorage.stockeasy_role = some "admin") :=
  have h9 : parseInt (interp tamperedWorld.localStorage.stockeasy_facility_id) = .int 9 := by
    decide
  have h := restore_uses_persisted_scope tamperedWorld (by decide) (by decide)
  ⟨by decide, by decide, h9, h.1,
   (h.2.1 (fun v hv => by
      rw [h9] at hv
      cases hv
      exact Nat.lt_of_lt_of_le (by decide : (9 : Int).natAbs < 2 ^ 4)
        (Nat.pow_le_pow_right (by decide) (by decide)))).trans (by decide),
   h.2.2.2⟩

/-- The white space and the rounding of `parseInt`: a no-break space before the digits is
skipped, a `px` after them is ignored, `0x` switches to hexadecimal, and above 2^53 the
value is the nearest Number: 2^53 + 1 reads as 2^53, 2^53 + 3 as 2^53 + 4, 2^54 + 1 as
2^54 and 2^54 + 3 as 2^54 + 4. -/
theorem parseInt_examples :
    parseInt (String.mk [Char.ofNat 160, '9']) = .int 9 ∧
    parseInt "12px" = .int 12 ∧
    parseInt " -0x1F" = .int (-31) ∧
    parseInt "px" = .nan ∧
    parseInt "9007199254740993" = .int 9007199254740992 ∧
    parseInt "9007199254740995" = .int 9007199254740996 ∧
    parseInt "18014398509481985" = .int 18014398509481984 ∧
    parseInt "-18014398509481987" = .int (-18014398509481988) := by
  decide

/-! ## Login then restore (C16) -/

/-- C16, the code at the failing input: a staff member of facility 3 is signed in and the
system administrator logs in without a logout in between; the login establishes facility
id null, the fetch of the administrator record succeeds, and `restoreSession` reports
success with role `system_admin` but facility id 3, taken from the key the staff login
left behind. -/
theorem loginAdmin_then_restore_regains_facility :
    (loginAdmin staffWorld "admin" "secret").1.success = true ∧
    (loginAdmin staffWorld "admin" "secret").1.facilityId = none ∧
    getCurrentFacilityId (loginAdmin staffWorld "admin" "secret").2 = none ∧
    ((loginAdmin staffWorld "admin" "secret").2.remote.adminUsersSingle "1").1 =
      .ok ⟨1, "admin", none, none, none⟩ ∧
    (restoreSession (loginAdmin staffWorld "admin" "secret").2).1.success = true ∧
    (restoreSession (loginAdmin staffWorld "admin" "secret").2).1.role = some "system_admin" ∧
    (restoreSession (loginAdmin staffWorld "admin" "secret").2).1.facilityId =
      some (.int 3) ∧
    getCurrentFacilityId (restoreSession (loginAdmin staffWorld "admin" "secret").2).2 =
      some (.int 3) := by
  refine ⟨by decide, by decide, by decide, rfl, by decide, by decide, by decide, by decide⟩

theorem digitVal_digitChar (k : Nat) (hk : k < 10) :
    digitVal 10 (Nat.digitChar k) = some k := by
  interval_cases k <;> rfl

theorem toDigitsCore_decimal (fuel : Nat) :
    ∀ (n : Nat) (ds : List Char), (∀ c ∈ ds, IsDecimalChar c) →
      ∀ c ∈ Nat.toDigitsCore 10 fuel n ds, IsDecimalChar c := by
  induction fuel with
  | zero => intro n ds hds c hc; exact hds c hc
  | succ fuel ih =>
    intro n ds hds c hc
    have hd : ∀ c ∈ Nat.digitChar (n % 10) :: ds, IsDecimalChar c := by
      intro c hc
      rcases List.mem_cons.mp hc with h | h
      · exact ⟨n % 10, Nat.mod_lt _ (by decide), h⟩
      · exact hds c h
    unfold Nat.toDigitsCore at hc
    simp only [] at hc
    split at hc
    · exact hd c hc
    · exact ih _ _ hd c hc

theorem parseDigits_toDigitsCore (fuel : Nat) :
    ∀ (n : Nat) (ds : List Char), n < fuel →
      parseDigits 10 (Nat.toDigitsCore 10 fuel n ds) none = parseDigits 10 ds (some n) := by
  induction fuel with
  | zero => intro n ds h; omega
  | succ fuel ih =>
    intro n ds hn
    unfold Nat.toDigitsCore
    simp only []
    split
    · rename_i h0
      have hlt : n < 10 := by omega
      rw [Nat.mod_eq_of_lt hlt]
      simp [parseDigits, digitVal_digitChar n hlt]
    · rename_i h0
      rw [ih (n / 10) _ (by omega)]
      simp only [parseDigits, digitVal_digitChar (n % 10) (Nat.mod_lt _ (by decide)),
        Option.getD_some]
      rw [Nat.div_add_mod']

theorem parseMagnitude_decimal (cs : List Char) (h : ∀ c ∈ cs, IsDecimalChar c) :
    parseMagnitude cs = parseDigits 10 cs none := by
  unfold parseMagnitude
  split
  · rename_i rest
    obtain ⟨k, hk, hx⟩ := h 'x' (by simp)
    interval_cases k <;> simp [Nat.digitChar] at hx
  · rename_i rest
    obtain ⟨k, hk, hx⟩ := h 'X' (by simp)
    interval_cases k <;> simp [Nat.digitChar] at hx
  · rfl

theorem toDouble_of_lt (m : Nat) (hm : m < 9007199254740992) : toDouble m = m := by
  simp [toDouble, hm]

theorem isJsWhiteSpace_digitChar (k : Nat) (hk : k < 10) :
    isJsWhiteSpace (Nat.digitChar k) = false := by
  interval_cases k <;> decide

/-- Reading back with `parseInt` what `toString` printed for an integer of magnitude below
2^53 gives that integer. -/
theorem parseInt_toString (n : Int) (hn : n.natAbs < 9007199254740992) :
    parseInt (toString n) = .int n := by
  have hdec : ∀ m : Nat, ∀ c ∈ Nat.toDigits 10 m, IsDecimalChar c := by
    intro m
    exact toDigitsCore_decimal (m + 1) m [] (by simp)
  have hval : ∀ m : Nat, parseMagnitude (Nat.toDigits 10 m) = some m := by
    intro m
    rw [parseMagnitude_decimal _ (hdec m)]
    exact parseDigits_toDigitsCore (m + 1) m [] (by omega)
  cases n with
  | ofNat m =>
    have hm : m < 9007199254740992 := by simpa using hn
    have hs : (toString (Int.ofNat m)).toList = Nat.toDigits 10 m := rfl
    unfold parseInt
    rw [hs]
    cases hl : Nat.toDigits 10 m with
    | nil =>
      have := hval m
      rw [hl] at this
      simp [parseMagnitude, parseDigits] at this
    | cons c rest =>
      obtain ⟨k, hk, hc⟩ := hdec m c (by rw [hl]; simp)
      have hv := hval m
      rw [hl] at hv
      subst hc
      have hw := isJsWhiteSpace_digitChar k hk
      rw [List.dropWhile_cons_of_neg (by simp [hw])]
      interval_cases k <;> simp [Nat.digitChar] at hv ⊢ <;>
        simp [hv, toDouble_of_lt m hm]
  | negSucc m =>
    have hm : m + 1 < 9007199254740992 := by simpa using hn
    have hs : (toString (Int.negSucc m)).toList = '-' :: Nat.toDigits 10 (m + 1) := rfl
    have hw : isJsWhiteSpace '-' = false := by decide
    unfold parseInt
    rw [hs, List.dropWhile_cons_of_neg (by simp [hw])]
    simp only [hval (m + 1), toDouble_of_lt (m + 1) hm]
    rw [Int.negSucc_eq]
    simp

theorem toString_nat_ne_empty (n : Nat) : toString n ≠ "" := by
  intro h
  have hd : Nat.toDigits 10 n = [] := by
    have h2 : (toString n).toList = Nat.toDigits 10 n := rfl
    rw [h] at h2
    exact h2.symm
  have hdec : ∀ c ∈ Nat.toDigits 10 n, IsDecimalChar c :=
    toDigitsCore_decimal (n + 1) n [] (by simp)
  have h3 : parseMagnitude (Nat.toDigits 10 n) = some n := by
    rw [parseMagnitude_decimal _ hdec]
    exact parseDigits_toDigitsCore (n + 1) n [] (by omega)
  rw [hd] at h3
  simp [parseMagnitude, parseDigits] at h3

theorem toString_int_ne_empty (n : Int) : toString n ≠ "" := by
  cases n with
  | ofNat m => exact toString_nat_ne_empty m
  | negSucc m =>
    intro h
    have h2 : (toString (Int.negSucc m)).toList = '-' :: Nat.toDigits 10 (m + 1) := rfl
    rw [h] at h2
    cases h2

/-- The staff path of the round trip: after a successful `login` with a facility id of
magnitude below 2^53 and a non-empty username and role, whatever durable storage held
before, a `restoreSession` whose fetch by id succeeds reports success with the role and
the facility id the login established. -/
theorem login_then_restore (w : World) (facilityId : Int) (username password role : String)
    (record : UserRecord)
    (hlogin : (login w facilityId username password role).1.success = true)
    (hsafe : facilityId.natAbs < 9007199254740992)
    (husername : username ≠ "") (hrole : role ≠ "")
    (hfetch : (if role = "system_admin"
        then ((login w facilityId username password role).2.remote.adminUsersSingle
          (interp (login w facilityId username password role).2.localStorage.stockeasy_user_id)).1
        else ((login w facilityId username password role).2.remote.usersSingle
          (interp (login w facilityId username password role).2.localStorage.stockeasy_user_id)).1)
        = .ok record) :
    (restoreSession (login w facilityId username password role).2).1.success = true ∧
    (restoreSession (login w facilityId username password role).2).1.role = some role ∧
    (restoreSession (login w facilityId username password role).2).1.facilityId =
      some (.int facilityId) ∧
    getCurrentRole (restoreSession (login w facilityId username password role).2).2 =
      getCurrentRole (login w facilityId username password role).2 ∧
    getCurrentFacilityId (restoreSession (login w facilityId username password role).2).2 =
      getCurrentFacilityId (login w facilityId username password role).2 := by
  unfold login at hlogin hfetch ⊢
  cases hsel : w.remote.usersSelect facilityId username role with
  | mk res r1 =>
    rw [hsel] at hlogin hfetch
    cases res with
    | error err => simp [sessionFailure] at hlogin
    | ok users =>
      cases users with
      | nil => simp [sessionFailure] at hlogin
      | cons user rest =>
        simp only [interp] at hfetch
        unfold restoreSession
        have hguard : (!truthyStr (some role) || !truthyStr (some username) ||
            !truthyStr (some (toString user.id))) = false := by
          simp [truthyStr, hrole, husername, toString_nat_ne_empty]
        have hfid : truthyStr (some (toString facilityId)) = true := by
          simp [truthyStr, toString_int_ne_empty]
        simp only [hguard, hfid, Bool.false_eq_true, if_false, if_true, interp,
          parseInt_toString facilityId hsafe, Option.some.injEq]
        by_cases hsys : role = "system_admin"
        · simp only [hsys, if_true] at hfetch ⊢
          cases hres : r1.adminUsersSingle (toString user.id) with
          | mk res2 r2 =>
            rw [hres] at hfetch
            simp only at hfetch
            subst hfetch
            exact ⟨rfl, rfl, rfl, rfl, rfl⟩
        · simp only [hsys, if_false] at hfetch ⊢
          cases hres : r1.usersSingle (toString user.id) with
          | mk res2 r2 =>
            rw [hres] at hfetch
            simp only at hfetch
            subst hfetch
            exact ⟨rfl, rfl, rfl, rfl, rfl⟩

end StockEasy
